import Mathlib

/-!
Verification of the Satori language core (scanner, compiler, VM, tables,
module registry) against its natural-language specification.

The definitions below are a shallow embedding of the C sources:
  src/core/value.c, src/core/table.c, src/backend/codegen.c,
  src/frontend/lexer.c, src/vm.c (runtime), src/runtime/module.c,
  src/stdlib/io.c, src/stdlib/string.c.

Modelling conventions:
- Machine bytes (u8) are Nat values kept below 256 by taking the value
  mod 256 exactly where C performs an implicit u8 conversion.
- The C type f64 is modelled by Rat.  No claim settled here depends on
  rounding: only exact zero tests, orderings of small values, and the
  float-versus-int tag are at issue, and for those the model agrees with
  IEEE-754 (a nonzero i64 never converts to 0.0, 0 converts to 0.0).
- The C type i64 is modelled by Int; no settled claim exercises overflow.
- C char pointers that serve as string payloads are modelled as a pair of
  a payload pointer id (Nat) and the pointed-to byte list.
- Where the C code would read memory out of bounds or read unspecified
  union bits (undefined or unspecified behaviour), the model returns an
  explicit failure sentinel; every theorem below stays inside the defined
  cases, so the sentinel value is never load-bearing.
-/

set_option maxRecDepth 100000

namespace Satori

/-- Value type tags follow the ValueType enum of src/core/value.h:
VALUE_NIL, VALUE_BOOL, VALUE_INT, VALUE_FLOAT, VALUE_STRING,
VALUE_NATIVE_FN, VALUE_OBJ.  A string carries its payload pointer id and
the pointed-to bytes; a native function carries an id that indexes a
native environment; an object carries its pointer id. -/
inductive Value where
  | vnil : Value
  | vbool (b : Bool) : Value
  | vint (i : Int) : Value
  | vfloat (f : Rat) : Value
  | vstring (ptr : Nat) (chars : List Nat) : Value
  | vnativeFn (id : Nat) : Value
  | vobj (ptr : Nat) : Value
deriving DecidableEq

/-- Embedding of value_equal from src/core/value.c.  The C function first
returns false on differing type tags, then switches on the tag with cases
for VALUE_NIL, VALUE_BOOL, VALUE_INT, VALUE_FLOAT and VALUE_OBJ only;
VALUE_STRING and VALUE_NATIVE_FN fall through to the default case, which
returns false. -/
def value_equal : Value → Value → Bool
  | .vnil, .vnil => true
  | .vbool a, .vbool b => a == b
  | .vint a, .vint b => a == b
  | .vfloat a, .vfloat b => a == b
  | .vobj a, .vobj b => a == b
  | _, _ => false

/-- Embedding of value_to_float from src/core/value.c: ints are converted,
floats pass through, every other tag yields 0.0 (the commented error
case in the C source). -/
def value_to_float : Value → Rat
  | .vint i => (i : Rat)
  | .vfloat f => f
  | _ => 0

/-- Tag test corresponding to the IS_NUMBER macro of src/core/value.h. -/
def is_number : Value → Bool
  | .vint _ => true
  | .vfloat _ => true
  | _ => false

/-- Truthiness as computed inline by the OP_NOT and OP_JUMP_IF_FALSE
handlers of src/vm.c: only nil and false are falsy. -/
def is_falsy : Value → Bool
  | .vnil => true
  | .vbool b => !b
  | _ => false

/-!
Hash table, embedded from src/core/table.c.  Keys are C strings compared
with strcmp, so they are modelled by their byte lists (strdup pointer
identity is never observed).  A NULL key marks an empty slot.
-/

/-- Table entry as in src/core/table.h: a key pointer (NULL meaning an
empty slot) and a value. -/
structure Entry where
  key : Option (List Nat)
  value : Value
deriving DecidableEq

/-- Hash table as in src/core/table.h; capacity is the length of the
entries list. -/
structure Table where
  count : Nat
  entries : List Entry
deriving DecidableEq

/-- FNV-1a hash of src/core/table.c, computed in u32 arithmetic (each
multiplication is reduced mod 2 ^ 32 as the C u32 type does). -/
def hash_string (key : List Nat) : Nat :=
  key.foldl (fun h c => ((h ^^^ c % 256) * 16777619) % 4294967296) 2166136261

/-- One probe step of find_entry from src/core/table.c, with explicit
fuel.  The C loop runs forever when the key is absent and no slot is
empty; the callers keep the load factor at or below 0.75, so capacity
steps of fuel always suffice and the fuel-exhausted case (modelled as
none) is unreachable in any execution the theorems below describe. -/
def find_entry_probe (entries : List Entry) (capacity : Nat) (key : List Nat) :
    Nat → Nat → Option Nat
  | 0, _ => none
  | fuel + 1, index =>
    match entries[index]? with
    | none => none
    | some entry =>
      match entry.key with
      | none => some index
      | some k =>
        if k = key then some index
        else find_entry_probe entries capacity key fuel ((index + 1) % capacity)

/-- Embedding of find_entry from src/core/table.c: start probing at the
hash of the key mod capacity, stepping linearly, and return the index of
the first slot that is empty or holds the key. -/
def find_entry (entries : List Entry) (capacity : Nat) (key : List Nat) : Option Nat :=
  if capacity = 0 then none
  else find_entry_probe entries capacity key capacity (hash_string key % capacity)

/-- Embedding of adjust_capacity from src/core/table.c: allocate a fresh
all-empty entry array, rehash every occupied slot into it, and recount. -/
def adjust_capacity (table : Table) (capacity : Nat) : Table :=
  let init : List Entry := List.replicate capacity { key := none, value := Value.vnil }
  let rehash := table.entries.foldl
    (fun (acc : Nat × List Entry) entry =>
      match entry.key with
      | none => acc
      | some k =>
        match find_entry acc.2 capacity k with
        | none => acc
        | some dest => (acc.1 + 1, acc.2.set dest { key := some k, value := entry.value }))
    (0, init)
  { count := rehash.1, entries := rehash.2 }

/-- Embedding of table_init from src/core/table.c. -/
def table_init : Table := { count := 0, entries := [] }

/-- Embedding of table_get from src/core/table.c: none models the false
return, some v models storing v through the out parameter. -/
def table_get (table : Table) (key : List Nat) : Option Value :=
  if table.count = 0 then none
  else
    match find_entry table.entries table.entries.length key with
    | none => none
    | some index =>
      match table.entries[index]? with
      | none => none
      | some entry =>
        match entry.key with
        | none => none
        | some _ => entry.value

/-- Embedding of table_set from src/core/table.c.  The growth test
count + 1 > capacity * 0.75 is computed exactly via 4 * (count + 1) >
3 * capacity, which is equivalent for the integer values involved.
Returns the is-new-key flag together with the updated table. -/
def table_set (table : Table) (key : List Nat) (value : Value) : Bool × Table :=
  let table :=
    if 3 * table.entries.length < 4 * (table.count + 1) then
      adjust_capacity table (if table.entries.length < 8 then 8 else table.entries.length * 2)
    else table
  match find_entry table.entries table.entries.length key with
  | none => (false, table)
  | some index =>
    match table.entries[index]? with
    | none => (false, table)
    | some entry =>
      let is_new := entry.key.isNone
      let entries := table.entries.set index { key := some key, value := value }
      (is_new,
        { count := if is_new then table.count + 1 else table.count, entries := entries })

/-- Embedding of table_delete from src/core/table.c: the found slot has
its key freed and set to NULL and its value set to nil, and the count is
decremented.  Note that a NULL key is exactly what find_entry treats as
an empty, never-occupied slot. -/
def table_delete (table : Table) (key : List Nat) : Bool × Table :=
  if table.count = 0 then (false, table)
  else
    match find_entry table.entries table.entries.length key with
    | none => (false, table)
    | some index =>
      match table.entries[index]? with
      | none => (false, table)
      | some entry =>
        match entry.key with
        | none => (false, table)
        | some _ =>
          (true,
            { count := table.count - 1,
              entries := table.entries.set index { key := none, value := Value.vnil } })

/-- Key bytes of the one-character C string a. -/
def keyA : List Nat := [97]

/-- Key bytes of the one-character C string i.  FNV-1a maps both keyA and
keyI to slot 4 of an 8-slot table. -/
def keyI : List Nat := [105]

/-!
Virtual machine, embedded from src/vm.c, src/runtime/module.c and
src/stdlib (io.c, string.c).  Opcode numbers follow the OpCode enum of
src/vm.h in declaration order.
-/

abbrev SATORI_STACK_MAX : Nat := 256
abbrev SATORI_MAX_LOCALS : Nat := 256

abbrev OP_CONSTANT : Nat := 0
abbrev OP_POP : Nat := 1
abbrev OP_GET_LOCAL : Nat := 2
abbrev OP_SET_LOCAL : Nat := 3
abbrev OP_GET_GLOBAL : Nat := 4
abbrev OP_CALL_NATIVE : Nat := 5
abbrev OP_IMPORT : Nat := 6
abbrev OP_GET_MEMBER : Nat := 7
abbrev OP_ADD : Nat := 8
abbrev OP_SUBTRACT : Nat := 9
abbrev OP_MULTIPLY : Nat := 10
abbrev OP_DIVIDE : Nat := 11
abbrev OP_MODULO : Nat := 12
abbrev OP_NEGATE : Nat := 13
abbrev OP_EQUAL : Nat := 14
abbrev OP_NOT_EQUAL : Nat := 15
abbrev OP_LESS : Nat := 16
abbrev OP_LESS_EQUAL : Nat := 17
abbrev OP_GREATER : Nat := 18
abbrev OP_GREATER_EQUAL : Nat := 19
abbrev OP_NOT : Nat := 20
abbrev OP_JUMP : Nat := 21
abbrev OP_JUMP_IF_FALSE : Nat := 22
abbrev OP_LOOP : Nat := 23
abbrev OP_PRINT : Nat := 24
abbrev OP_RETURN : Nat := 25
abbrev OP_HALT : Nat := 26

/-- Chunk of src/vm.h: the opcode byte list and the constant pool.  The
C capacity fields are an allocation detail with no semantic content and
are not modelled. -/
structure Chunk where
  code : List Nat
  constants : List Value
deriving DecidableEq

/-- VM state of src/vm.h.  The stack is a list with its head as the top
slot.  The C locals array is uninitialized memory; reads of never-written
slots are guarded by local_count in the interpreter, and the model fills
them with nil.  The chunk travels as a separate argument of step.  The
field initLog is ghost instrumentation recording which module
initializers have run, in order; no handler reads it. -/
structure VM where
  ip : Nat
  stack : List Value
  locals : List Value
  local_count : Nat
  globals : Table
  loaded_modules : Table
  initLog : List (List Nat)
deriving DecidableEq

/-- Embedding of vm_init of src/vm.c together with module_system_init of
src/runtime/module.c: empty stack, zero counts, fresh tables. -/
def vm_make : VM :=
  { ip := 0, stack := [], locals := List.replicate SATORI_MAX_LOCALS Value.vnil,
    local_count := 0, globals := table_init, loaded_modules := table_init, initLog := [] }

/-- Native function ids standing for the C function pointers registered
by the built-in modules. -/
abbrev NATIVE_IO_PRINTLN : Nat := 0
abbrev NATIVE_IO_PRINT : Nat := 1
abbrev NATIVE_STRING_TO_UPPER : Nat := 2
abbrev NATIVE_STRING_TO_LOWER : Nat := 3

/-- Byte list of the module name io. -/
def name_io : List Nat := [105, 111]

/-- Byte list of the module name string. -/
def name_string : List Nat := [115, 116, 114, 105, 110, 103]

/-- Byte list of the qualified name io.println. -/
def name_io_println : List Nat := [105, 111, 46, 112, 114, 105, 110, 116, 108, 110]

/-- Byte list of the qualified name io.print. -/
def name_io_print : List Nat := [105, 111, 46, 112, 114, 105, 110, 116]

/-- Byte list of the qualified name string.to_upper. -/
def name_string_to_upper : List Nat :=
  [115, 116, 114, 105, 110, 103, 46, 116, 111, 95, 117, 112, 112, 101, 114]

/-- Byte list of the qualified name string.to_lower. -/
def name_string_to_lower : List Nat :=
  [115, 116, 114, 105, 110, 103, 46, 116, 111, 95, 108, 111, 119, 101, 114]

/-- Embedding of module_register_native of src/runtime/module.c. -/
def module_register_native (vm : VM) (name : List Nat) (id : Nat) : VM :=
  { vm with globals := (table_set vm.globals name (Value.vnativeFn id)).2 }

/-- Embedding of io_module_init of src/stdlib/io.c: registers io.println
and io.print. -/
def io_module_init (vm : VM) : VM :=
  module_register_native
    (module_register_native vm name_io_println NATIVE_IO_PRINTLN)
    name_io_print NATIVE_IO_PRINT

/-- Embedding of string_module_init of src/stdlib/string.c: registers
string.to_upper and string.to_lower. -/
def string_module_init (vm : VM) : VM :=
  module_register_native
    (module_register_native vm name_string_to_upper NATIVE_STRING_TO_UPPER)
    name_string_to_lower NATIVE_STRING_TO_LOWER

/-- Registry of built-in modules of src/runtime/module.c
(builtin_modules array, sans the NULL sentinel). -/
def builtin_modules : List (List Nat × (VM → VM)) :=
  [(name_io, io_module_init), (name_string, string_module_init)]

/-- Linear registry scan of module_load comparing names with strcmp. -/
def registry_lookup (name : List Nat) : Option (VM → VM) :=
  (builtin_modules.find? (fun m => m.1 == name)).map (fun m => m.2)

/-- Embedding of module_load of src/runtime/module.c: an already-loaded
name returns success untouched; otherwise a registry hit runs the
initializer, marks the name loaded and logs the initializer call (ghost);
a registry miss returns false (the C code prints Unknown module to
stderr). -/
def module_load (vm : VM) (name : List Nat) : Bool × VM :=
  match table_get vm.loaded_modules name with
  | some _ => (true, vm)
  | none =>
    match registry_lookup name with
    | some initFn =>
      let vm1 := initFn vm
      (true,
        { vm1 with loaded_modules := (table_set vm1.loaded_modules name (Value.vbool true)).2,
                   initLog := vm1.initLog ++ [name] })
    | none => (false, vm)

/-- Embedding of stack_push of src/vm.c with its overflow check. -/
def stack_push (stack : List Value) (v : Value) : Except String (List Value) :=
  if SATORI_STACK_MAX ≤ stack.length then .error "Stack overflow"
  else .ok (v :: stack)

/-- Embedding of stack_pop of src/vm.c with its underflow check. -/
def stack_pop : List Value → Except String (Value × List Value)
  | [] => .error "Stack underflow"
  | v :: rest => .ok (v, rest)

/-- Two stack_pop calls in the order every binary handler of src/vm.c
uses: b is popped first, then a. -/
def pop2 (stack : List Value) : Except String (Value × Value × List Value) :=
  match stack_pop stack with
  | .error m => .error m
  | .ok (b, s1) =>
    match stack_pop s1 with
    | .error m => .error m
    | .ok (a, s2) => .ok (b, a, s2)

/-- Operand coercion written inline in the OP_ADD, OP_SUBTRACT,
OP_MULTIPLY and OP_DIVIDE handlers: IS_INT(x) converts the int, a float
passes through, and any other tag makes the C code read unspecified
union bits through AS_FLOAT; the model refuses with a sentinel there. -/
def as_float_operand : Value → Except String Rat
  | .vint i => .ok (i : Rat)
  | .vfloat f => .ok f
  | _ => .error "unspecified union read"

/-- Outcome of one dispatch iteration of vm_run: continue, stop on
OP_HALT, or stop with the message of the fatal diagnostic. -/
inductive StepOut where
  | next (vm : VM)
  | halt (vm : VM)
  | fail (msg : String)
deriving DecidableEq

/-- Shared template of the OP_ADD, OP_SUBTRACT and OP_MULTIPLY handlers
of src/vm.c: two int operands use the int operation, otherwise both are
coerced to float and the float operation is used. -/
def arith_step (vm : VM) (int_op : Int → Int → Int) (float_op : Rat → Rat → Rat) : StepOut :=
  match pop2 vm.stack with
  | .error m => .fail m
  | .ok (b, a, rest) =>
    match a, b with
    | .vint ia, .vint ib =>
      match stack_push rest (Value.vint (int_op ia ib)) with
      | .error m => .fail m
      | .ok s => .next { vm with ip := vm.ip + 1, stack := s }
    | _, _ =>
      match as_float_operand a with
      | .error m => .fail m
      | .ok fa =>
        match as_float_operand b with
        | .error m => .fail m
        | .ok fb =>
          match stack_push rest (Value.vfloat (float_op fa fb)) with
          | .error m => .fail m
          | .ok s => .next { vm with ip := vm.ip + 1, stack := s }

/-- Shared template of the four comparison handlers OP_LESS,
OP_LESS_EQUAL, OP_GREATER and OP_GREATER_EQUAL of src/vm.c: pop b then
a, coerce both through value_to_float, push the boolean comparison. -/
def compare_step (vm : VM) (cmp : Rat → Rat → Bool) : StepOut :=
  match pop2 vm.stack with
  | .error m => .fail m
  | .ok (b, a, rest) =>
    match stack_push rest (Value.vbool (cmp (value_to_float a) (value_to_float b))) with
    | .error m => .fail m
    | .ok s => .next { vm with ip := vm.ip + 1, stack := s }

/-- One iteration of the dispatch loop of vm_run in src/vm.c.  The
natives argument interprets native function ids, standing for the C
function pointer call (id, arg_count, argument slice in bottom-to-top
order).  Each numeric pattern is one case of the C switch; out-of-range
code or pool reads, which the C macros perform blindly, return explicit
sentinel failures. -/
def step (natives : Nat → Nat → List Value → Value) (ch : Chunk) (vm : VM) : StepOut :=
  match ch.code[vm.ip]? with
  | none => .fail "instruction cursor out of range"
  | some op =>
    match op with
    | 0 =>  -- OP_CONSTANT
      match ch.code[vm.ip + 1]? with
      | none => .fail "instruction cursor out of range"
      | some idx =>
        match ch.constants[idx]? with
        | none => .fail "constant index out of range"
        | some v =>
          match stack_push vm.stack v with
          | .error m => .fail m
          | .ok s => .next { vm with ip := vm.ip + 2, stack := s }
    | 1 =>  -- OP_POP
      match stack_pop vm.stack with
      | .error m => .fail m
      | .ok (_, s) => .next { vm with ip := vm.ip + 1, stack := s }
    | 2 =>  -- OP_GET_LOCAL
      match ch.code[vm.ip + 1]? with
      | none => .fail "instruction cursor out of range"
      | some slot =>
        if vm.local_count ≤ slot then .fail "Undefined local variable"
        else
          match stack_push vm.stack (vm.locals.getD slot Value.vnil) with
          | .error m => .fail m
          | .ok s => .next { vm with ip := vm.ip + 2, stack := s }
    | 3 =>  -- OP_SET_LOCAL
      match ch.code[vm.ip + 1]? with
      | none => .fail "instruction cursor out of range"
      | some slot =>
        if SATORI_MAX_LOCALS ≤ slot then .fail "Local variable slot out of bounds"
        else
          match stack_pop vm.stack with
          | .error m => .fail m
          | .ok (v, s) =>
            StepOut.next
              { vm with ip := vm.ip + 2, stack := s,
                        locals := vm.locals.set slot v,
                        local_count :=
                          if vm.local_count ≤ slot then slot + 1 else vm.local_count }
    | 4 =>  -- OP_GET_GLOBAL
      match ch.code[vm.ip + 1]? with
      | none => .fail "instruction cursor out of range"
      | some idx =>
        match ch.constants[idx]? with
        | none => .fail "constant index out of range"
        | some c =>
          match c with
          | .vstring _ name =>
            match table_get vm.globals name with
            | none => .fail "Undefined global"
            | some v =>
              match stack_push vm.stack v with
              | .error m => .fail m
              | .ok s => .next { vm with ip := vm.ip + 2, stack := s }
          | _ => .fail "unspecified union read"
    | 5 =>  -- OP_CALL_NATIVE
      match ch.code[vm.ip + 1]? with
      | none => .fail "instruction cursor out of range"
      | some arg_count =>
        match vm.stack[arg_count]? with
        | none => .fail "stack peek out of range"
        | some callee =>
          match callee with
          | .vnativeFn id =>
            let args := (vm.stack.take arg_count).reverse
            let result := natives id arg_count args
            match stack_push (vm.stack.drop (arg_count + 1)) result with
            | .error m => .fail m
            | .ok s => .next { vm with ip := vm.ip + 2, stack := s }
          | _ => .fail "Can only call native functions"
    | 6 =>  -- OP_IMPORT
      match ch.code[vm.ip + 1]? with
      | none => .fail "instruction cursor out of range"
      | some idx =>
        match ch.constants[idx]? with
        | none => .fail "constant index out of range"
        | some c =>
          match c with
          | .vstring _ name =>
            match module_load vm name with
            | (true, vm2) => .next { vm2 with ip := vm.ip + 2 }
            | (false, _) => .fail "Failed to load module"
          | _ => .fail "unspecified union read"
    | 8 => arith_step vm (fun x y => x + y) (fun x y => x + y)    -- OP_ADD
    | 9 => arith_step vm (fun x y => x - y) (fun x y => x - y)    -- OP_SUBTRACT
    | 10 => arith_step vm (fun x y => x * y) (fun x y => x * y)   -- OP_MULTIPLY
    | 11 =>  -- OP_DIVIDE
      match pop2 vm.stack with
      | .error m => .fail m
      | .ok (b, a, rest) =>
        match as_float_operand a with
        | .error m => .fail m
        | .ok a_val =>
          match as_float_operand b with
          | .error m => .fail m
          | .ok b_val =>
            if b_val = 0 then .fail "Division by zero"
            else
              match stack_push rest (Value.vfloat (a_val / b_val)) with
              | .error m => .fail m
              | .ok s => .next { vm with ip := vm.ip + 1, stack := s }
    | 12 =>  -- OP_MODULO
      match pop2 vm.stack with
      | .error m => .fail m
      | .ok (b, a, rest) =>
        match a, b with
        | .vint ia, .vint ib =>
          if ib = 0 then .fail "Modulo by zero"
          else
            match stack_push rest (Value.vint (Int.tmod ia ib)) with
            | .error m => .fail m
            | .ok s => .next { vm with ip := vm.ip + 1, stack := s }
        | _, _ => .fail "Modulo requires integer operands"
    | 13 =>  -- OP_NEGATE
      match stack_pop vm.stack with
      | .error m => .fail m
      | .ok (a, rest) =>
        match a with
        | .vint i =>
          match stack_push rest (Value.vint (-i)) with
          | .error m => .fail m
          | .ok s => .next { vm with ip := vm.ip + 1, stack := s }
        | .vfloat f =>
          match stack_push rest (Value.vfloat (-f)) with
          | .error m => .fail m
          | .ok s => .next { vm with ip := vm.ip + 1, stack := s }
        | _ => .fail "Cannot negate non-numeric value"
    | 14 =>  -- OP_EQUAL
      match pop2 vm.stack with
      | .error m => .fail m
      | .ok (b, a, rest) =>
        match stack_push rest (Value.vbool (value_equal a b)) with
        | .error m => .fail m
        | .ok s => .next { vm with ip := vm.ip + 1, stack := s }
    | 15 =>  -- OP_NOT_EQUAL
      match pop2 vm.stack with
      | .error m => .fail m
      | .ok (b, a, rest) =>
        match stack_push rest (Value.vbool (!value_equal a b)) with
        | .error m => .fail m
        | .ok s => .next { vm with ip := vm.ip + 1, stack := s }
    | 16 => compare_step vm (fun x y => decide (x < y))   -- OP_LESS
    | 17 => compare_step vm (fun x y => decide (x ≤ y))   -- OP_LESS_EQUAL
    | 18 => compare_step vm (fun x y => decide (y < x))   -- OP_GREATER
    | 19 => compare_step vm (fun x y => decide (y ≤ x))   -- OP_GREATER_EQUAL
    | 20 =>  -- OP_NOT
      match stack_pop vm.stack with
      | .error m => .fail m
      | .ok (a, rest) =>
        let is_truthy := !is_falsy a
        match stack_push rest (Value.vbool (!is_truthy)) with
        | .error m => .fail m
        | .ok s => .next { vm with ip := vm.ip + 1, stack := s }
    | 21 =>  -- OP_JUMP
      match ch.code[vm.ip + 1]?, ch.code[vm.ip + 2]? with
      | some hi, some lo => .next { vm with ip := vm.ip + 3 + (hi * 256 + lo) }
      | _, _ => .fail "instruction cursor out of range"
    | 22 =>  -- OP_JUMP_IF_FALSE
      match ch.code[vm.ip + 1]?, ch.code[vm.ip + 2]? with
      | some hi, some lo =>
        match vm.stack with
        | [] => .fail "stack peek out of range"
        | condition :: _ =>
          if is_falsy condition then .next { vm with ip := vm.ip + 3 + (hi * 256 + lo) }
          else .next { vm with ip := vm.ip + 3 }
      | _, _ => .fail "instruction cursor out of range"
    | 23 =>  -- OP_LOOP
      match ch.code[vm.ip + 1]?, ch.code[vm.ip + 2]? with
      | some hi, some lo =>
        let offset := hi * 256 + lo
        if vm.ip + 3 < offset then .fail "instruction cursor out of range"
        else .next { vm with ip := vm.ip + 3 - offset }
      | _, _ => .fail "instruction cursor out of range"
    | 24 =>  -- OP_PRINT (printing is an effect outside the model)
      match ch.code[vm.ip + 1]? with
      | none => .fail "instruction cursor out of range"
      | some arg_count =>
        if vm.stack.length < arg_count then .fail "Stack underflow"
        else
          match stack_push (vm.stack.drop arg_count) Value.vnil with
          | .error m => .fail m
          | .ok s => .next { vm with ip := vm.ip + 2, stack := s }
    | 26 => .halt vm  -- OP_HALT
    | _ => .fail "Unknown opcode"

/-- Fuel-indexed iteration of the dispatch loop, recording the cursor
position of every executed instruction.  Fuel that runs out returns next
with the state reached after exactly that many continuing steps; a halt
or failure is returned as soon as it occurs, with the trace up to and
including the final instruction. -/
def runTraceN (natives : Nat → Nat → List Value → Value) (ch : Chunk) :
    Nat → VM → StepOut × List Nat
  | 0, vm => (.next vm, [])
  | fuel + 1, vm =>
    match step natives ch vm with
    | .next v =>
      let r := runTraceN natives ch fuel v
      (r.1, vm.ip :: r.2)
    | out => (out, [vm.ip])

/-- Execution outcome without the ghost trace: vm_run of src/vm.c
returns true on OP_HALT and false (after a diagnostic) otherwise; fuel
generalizes the unbounded C loop. -/
def runN (natives : Nat → Nat → List Value → Value) (ch : Chunk) (fuel : Nat) (vm : VM) :
    StepOut :=
  (runTraceN natives ch fuel vm).1

/-!
Bytecode compiler, embedded from src/backend/codegen.c (the current
version, the one with AST_IF, AST_WHILE and AST_LOOP cases).
-/

/-- Binary operator tags of the AST (BinaryOp enum of the frontend). -/
inductive BinOp where
  | add | sub | mul | div | mod | eq | neq | lt | lte | gt | gte
deriving DecidableEq

/-- Unary operator tags of the AST. -/
inductive UnOp where
  | neg | lnot
deriving DecidableEq

/-- AST nodes of src/frontend/ast.h as used by compile_node.  Names are
byte lists (C strings).  The or-else branch of an if statement is
optional, as in the C struct. -/
inductive AstNode where
  | program (statements : List AstNode)
  | ast_import (module_name : List Nat)
  | let_stmt (name : List Nat) (value : AstNode)
  | assignment (name : List Nat) (value : AstNode)
  | identifier (name : List Nat)
  | binary_op (op : BinOp) (left right : AstNode)
  | unary_op (op : UnOp) (operand : AstNode)
  | if_stmt (condition then_branch : AstNode) (else_branch : Option AstNode)
  | while_loop (condition body : AstNode)
  | loop_stmt (body : AstNode)
  | break_stmt
  | continue_stmt
  | block (statements : List AstNode)
  | call (callee : AstNode) (args : List AstNode)
  | member_access (object : AstNode) (member : List Nat)
  | string_literal (value : List Nat)
  | int_literal (value : Int)
  | float_literal (value : Rat)

/-- Compiler state of src/backend/codegen.c.  Locals hold the declared
names in slot order (add_local always assigns slot = local_count, so the
list index is the slot).  The errors field is a ghost log of every
error_report_simple message, and next_ptr is a ghost allocator handing
out fresh payload pointer ids for each value_make_string call. -/
structure Compiler where
  chunk : Chunk
  had_error : Bool
  locals : List (List Nat)
  errors : List String
  next_ptr : Nat
deriving DecidableEq

/-- Fresh compiler over an empty chunk, as codegen_compile sets up. -/
def compiler_make : Compiler :=
  { chunk := { code := [], constants := [] }, had_error := false,
    locals := [], errors := [], next_ptr := 0 }

/-- Embedding of chunk_write of src/vm.c: append one byte.  The C
parameter type u8 truncates the value mod 256 at the call boundary. -/
def chunk_write (chunk : Chunk) (byte : Nat) : Chunk :=
  { chunk with code := chunk.code ++ [byte % 256] }

/-- Embedding of chunk_add_constant of src/vm.c: append the value and
return its index, which is the previous constant count. -/
def chunk_add_constant (chunk : Chunk) (value : Value) : Nat × Chunk :=
  (chunk.constants.length, { chunk with constants := chunk.constants ++ [value] })

/-- Embedding of emit_byte of src/backend/codegen.c. -/
def emit_byte (c : Compiler) (byte : Nat) : Compiler :=
  { c with chunk := chunk_write c.chunk byte }

/-- Embedding of emit_bytes of src/backend/codegen.c. -/
def emit_bytes (c : Compiler) (byte1 byte2 : Nat) : Compiler :=
  emit_byte (emit_byte c byte1) byte2

/-- Embedding of emit_jump of src/backend/codegen.c: emit the jump
opcode and two 0xff placeholder bytes, and return the offset of the
first placeholder (count - 2). -/
def emit_jump (c : Compiler) (instruction : Nat) : Compiler × Nat :=
  let c := emit_byte (emit_byte (emit_byte c instruction) 0xff) 0xff
  (c, c.chunk.code.length - 2)

/-- Embedding of patch_jump of src/backend/codegen.c.  The stored big
endian bytes are jump / 256 and jump mod 256, which equal the C
expressions (jump over 8 bits) and-255 and jump and-255 for jump at most
0xffff. -/
def patch_jump (c : Compiler) (offset : Nat) : Compiler :=
  let jump := c.chunk.code.length - offset - 2
  if 0xffff < jump then
    { c with had_error := true, errors := c.errors ++ ["Too much code to jump over"] }
  else
    { c with chunk :=
        { c.chunk with code :=
            ((c.chunk.code.set offset (jump / 256)).set (offset + 1) (jump % 256)) } }

/-- Embedding of emit_loop of src/backend/codegen.c: emit OP_LOOP, then
the 16-bit backward offset computed from the count after the opcode byte
(count - loop_start + 2); on overflow the operand bytes are not emitted
and the error is recorded. -/
def emit_loop (c : Compiler) (loop_start : Nat) : Compiler :=
  let c := emit_byte c OP_LOOP
  let offset := c.chunk.code.length - loop_start + 2
  if 0xffff < offset then
    { c with had_error := true, errors := c.errors ++ ["Loop body too large"] }
  else
    emit_byte (emit_byte c (offset / 256)) (offset % 256)

/-- Embedding of make_constant of src/backend/codegen.c: append to the
pool; an index above 255 records the overflow diagnostic, sets the error
flag and returns 0. -/
def make_constant (c : Compiler) (value : Value) : Compiler × Nat :=
  let r := chunk_add_constant c.chunk value
  let c := { c with chunk := r.2 }
  if 255 < r.1 then
    ({ c with had_error := true, errors := c.errors ++ ["Too many constants in one chunk"] }, 0)
  else (c, r.1)

/-- Embedding of value_make_string of src/core/value.c at a compiler
call site: the strdup allocation is modelled by the ghost next_ptr
allocator, so every compiled string literal has a fresh payload id. -/
def compiler_make_string (c : Compiler) (chars : List Nat) : Compiler × Value :=
  ({ c with next_ptr := c.next_ptr + 1 }, Value.vstring c.next_ptr chars)

/-- Embedding of add_local of src/backend/codegen.c: none models the -1
error return when SATORI_MAX_LOCALS names exist already. -/
def add_local (c : Compiler) (name : List Nat) : Compiler × Option Nat :=
  if SATORI_MAX_LOCALS ≤ c.locals.length then
    ({ c with had_error := true, errors := c.errors ++ ["Too many local variables"] }, none)
  else
    ({ c with locals := c.locals ++ [name] }, some c.locals.length)

/-- Embedding of resolve_local of src/backend/codegen.c: scan from the
most recent local to the oldest and return the slot of the first match
(the slot stored in each entry is its insertion index). -/
def resolve_local (c : Compiler) (name : List Nat) : Option Nat :=
  match c.locals.reverse.findIdx? (fun n => n == name) with
  | none => none
  | some j => some (c.locals.length - 1 - j)

/-- Byte list for the dot character used when compile_call builds the
qualified module.member name. -/
def dot_byte : List Nat := [46]

/-- Opcode byte selected for each binary operator tag by the AST_BINARY_OP
case of compile_node. -/
def binop_opcode : BinOp → Nat
  | .add => OP_ADD
  | .sub => OP_SUBTRACT
  | .mul => OP_MULTIPLY
  | .div => OP_DIVIDE
  | .mod => OP_MODULO
  | .eq => OP_EQUAL
  | .neq => OP_NOT_EQUAL
  | .lt => OP_LESS
  | .lte => OP_LESS_EQUAL
  | .gt => OP_GREATER
  | .gte => OP_GREATER_EQUAL

mutual

/-- Embedding of compile_node of src/backend/codegen.c (the version with
control flow).  Each case mirrors one AST_ case of the C switch; the
snprintf into a 256-byte buffer in compile_call is modelled as exact
concatenation (no qualified name in any settled claim approaches 255
bytes). -/
def compile_node (c : Compiler) (node : AstNode) : Compiler :=
  match node with
  | .program statements => compile_list c statements
  | .ast_import module_name =>
    let r := compiler_make_string c module_name
    let r2 := make_constant r.1 r.2
    emit_bytes r2.1 OP_IMPORT r2.2
  | .let_stmt name value =>
    let c := compile_node c value
    let r := add_local c name
    match r.2 with
    | some slot => emit_bytes r.1 OP_SET_LOCAL slot
    | none => r.1
  | .assignment name value =>
    let c := compile_node c value
    match resolve_local c name with
    | some slot => emit_bytes c OP_SET_LOCAL slot
    | none =>
      { c with had_error := true,
               errors := c.errors ++ ["Undefined variable in assignment"] }
  | .identifier name =>
    match resolve_local c name with
    | some slot => emit_bytes c OP_GET_LOCAL slot
    | none =>
      { c with had_error := true, errors := c.errors ++ ["Undefined variable"] }
  | .binary_op op left right =>
    let c := compile_node c left
    let c := compile_node c right
    emit_byte c (binop_opcode op)
  | .unary_op op operand =>
    let c := compile_node c operand
    match op with
    | .neg => emit_byte c OP_NEGATE
    | .lnot => emit_byte c OP_NOT
  | .if_stmt condition then_branch else_branch =>
    let c := compile_node c condition
    let r := emit_jump c OP_JUMP_IF_FALSE
    let else_jump := r.2
    let c := emit_byte r.1 OP_POP
    let c := compile_node c then_branch
    let r2 := emit_jump c OP_JUMP
    let end_jump := r2.2
    let c := patch_jump r2.1 else_jump
    let c := emit_byte c OP_POP
    let c :=
      match else_branch with
      | some e => compile_node c e
      | none => c
    patch_jump c end_jump
  | .while_loop condition body =>
    let loop_start := c.chunk.code.length
    let c := compile_node c condition
    let r := emit_jump c OP_JUMP_IF_FALSE
    let exit_jump := r.2
    let c := emit_byte r.1 OP_POP
    let c := compile_node c body
    let c := emit_loop c loop_start
    let c := patch_jump c exit_jump
    emit_byte c OP_POP
  | .loop_stmt body =>
    let loop_start := c.chunk.code.length
    let c := compile_node c body
    emit_loop c loop_start
  | .break_stmt =>
    { c with had_error := true, errors := c.errors ++ ["break not yet implemented"] }
  | .continue_stmt =>
    { c with had_error := true, errors := c.errors ++ ["continue not yet implemented"] }
  | .block statements => compile_list c statements
  | .call callee args =>
    match callee with
    | .member_access object member =>
      match object with
      | .identifier obj_name =>
        let full_name := obj_name ++ dot_byte ++ member
        let r := compiler_make_string c full_name
        let r2 := make_constant r.1 r.2
        let c := emit_bytes r2.1 OP_GET_GLOBAL r2.2
        let c := compile_list c args
        let c := emit_bytes c OP_CALL_NATIVE args.length
        emit_byte c OP_POP
      | _ =>
        { c with had_error := true, errors := c.errors ++ ["Unknown function call"] }
    | _ =>
      { c with had_error := true, errors := c.errors ++ ["Unknown function call"] }
  | .member_access _ _ =>
    { c with had_error := true,
             errors := c.errors ++ ["Member access must be used in a call"] }
  | .string_literal value =>
    let r := compiler_make_string c value
    let r2 := make_constant r.1 r.2
    emit_bytes r2.1 OP_CONSTANT r2.2
  | .int_literal value =>
    let r := make_constant c (Value.vint value)
    emit_bytes r.1 OP_CONSTANT r.2
  | .float_literal value =>
    let r := make_constant c (Value.vfloat value)
    emit_bytes r.1 OP_CONSTANT r.2

/-- Statement-list walk shared by the AST_PROGRAM and AST_BLOCK cases of
compile_node. -/
def compile_list (c : Compiler) (nodes : List AstNode) : Compiler :=
  match nodes with
  | [] => c
  | node :: rest => compile_list (compile_node c node) rest

end

/-- Embedding of codegen_compile of src/backend/codegen.c: compile the
tree into a fresh compiler, then emit OP_HALT.  The C function returns
not had_error; the model returns the whole final compiler state. -/
def codegen_compile (ast : AstNode) : Compiler :=
  emit_byte (compile_node compiler_make ast) OP_HALT

/-!
Scanner, embedded from src/frontend/lexer.c.  Source text is a byte
list; the C NUL terminator corresponds to the end of the list, so the
model assumes the source has no embedded NUL byte (as every C caller
does).  The lexer keeps the unscanned suffix plus the absolute position
of the cursor, which mirrors the current pointer.
-/

/-- TokenType enum of src/frontend/lexer.h in declaration order. -/
inductive TokenType where
  | TOKEN_LEFT_PAREN | TOKEN_RIGHT_PAREN | TOKEN_LEFT_BRACE | TOKEN_RIGHT_BRACE
  | TOKEN_LEFT_BRACKET | TOKEN_RIGHT_BRACKET | TOKEN_COMMA | TOKEN_DOT
  | TOKEN_COLON | TOKEN_SEMICOLON
  | TOKEN_PLUS | TOKEN_MINUS | TOKEN_STAR | TOKEN_SLASH | TOKEN_PERCENT
  | TOKEN_AMPERSAND | TOKEN_PIPE | TOKEN_CARET | TOKEN_BANG | TOKEN_EQUAL
  | TOKEN_LESS | TOKEN_GREATER
  | TOKEN_PLUS_EQUAL | TOKEN_MINUS_EQUAL | TOKEN_STAR_EQUAL | TOKEN_SLASH_EQUAL
  | TOKEN_BANG_EQUAL | TOKEN_EQUAL_EQUAL | TOKEN_LESS_EQUAL | TOKEN_GREATER_EQUAL
  | TOKEN_COLON_EQUAL | TOKEN_DOT_DOT | TOKEN_ARROW
  | TOKEN_IDENTIFIER | TOKEN_STRING | TOKEN_NUMBER | TOKEN_INT | TOKEN_FLOAT
  | TOKEN_AND | TOKEN_OR | TOKEN_NOT | TOKEN_IF | TOKEN_ELSE | TOKEN_THEN
  | TOKEN_FOR | TOKEN_IN | TOKEN_LOOP | TOKEN_WHILE | TOKEN_BREAK
  | TOKEN_CONTINUE | TOKEN_RETURN | TOKEN_STRUCT | TOKEN_LET | TOKEN_IMPORT
  | TOKEN_DEFER | TOKEN_SPAWN | TOKEN_PANIC | TOKEN_TRUE | TOKEN_FALSE
  | TOKEN_NIL
  | TOKEN_TYPE_INT | TOKEN_TYPE_FLOAT | TOKEN_TYPE_BOOL | TOKEN_TYPE_STRING
  | TOKEN_TYPE_VOID | TOKEN_TYPE_BYTE
  | TOKEN_NEWLINE | TOKEN_EOF | TOKEN_ERROR
deriving DecidableEq

/-- Lexer state of src/frontend/lexer.h: the unscanned byte suffix, the
absolute index of the cursor (the current pointer), and the line and
column counters. -/
structure Lexer where
  rest : List Nat
  pos : Nat
  line : Nat
  column : Nat
deriving DecidableEq

/-- Token of src/frontend/lexer.h.  The start index and the lexeme bytes
together model the start pointer (for an error token the lexeme is the
static message bytes, as in C). -/
structure Token where
  type : TokenType
  start : Nat
  lexeme : List Nat
  length : Nat
  line : Nat
  column : Nat
deriving DecidableEq

/-- Embedding of lexer_init of src/frontend/lexer.c. -/
def lexer_new (source : List Nat) : Lexer :=
  { rest := source, pos := 0, line := 1, column := 1 }

/-- Character class is_digit of src/frontend/lexer.c. -/
def is_digit (c : Nat) : Bool := 48 ≤ c && c ≤ 57

/-- Character class is_alpha of src/frontend/lexer.c: letters and
underscore. -/
def is_alpha (c : Nat) : Bool :=
  (97 ≤ c && c ≤ 122) || (65 ≤ c && c ≤ 90) || c == 95

/-- Embedding of advance of src/frontend/lexer.c.  The scanner never
calls it at end of input (is_at_end is always checked first), so the
end case leaves the state unchanged. -/
def lexer_advance (lx : Lexer) : Lexer :=
  match lx.rest with
  | [] => lx
  | _ :: r => { lx with rest := r, pos := lx.pos + 1, column := lx.column + 1 }

/-- Embedding of match of src/frontend/lexer.c: consume the expected
byte if it is next, reporting whether it was. -/
def match_char (lx : Lexer) (expected : Nat) : Bool × Lexer :=
  match lx.rest with
  | [] => (false, lx)
  | c :: r =>
    if c = expected then
      (true, { lx with rest := r, pos := lx.pos + 1, column := lx.column + 1 })
    else (false, lx)

/-- Inner comment loop of skip_whitespace: advance until a newline or
the end of input, consuming the two slashes along the way.  Arguments
and results are rest, position, column. -/
def skip_comment_aux : List Nat → Nat → Nat → List Nat × Nat × Nat
  | [], pos, col => ([], pos, col)
  | 10 :: r, pos, col => (10 :: r, pos, col)
  | _ :: r, pos, col => skip_comment_aux r (pos + 1) (col + 1)

/-- Main loop of skip_whitespace of src/frontend/lexer.c: spaces, tabs
and carriage returns are consumed; two slashes start a comment, after
which the C loop comes back around and stops at the newline (or end)
the comment loop left in place; a single slash, a newline and anything
else return. -/
def skip_ws_aux : List Nat → Nat → Nat → List Nat × Nat × Nat
  | 32 :: r, pos, col => skip_ws_aux r (pos + 1) (col + 1)
  | 13 :: r, pos, col => skip_ws_aux r (pos + 1) (col + 1)
  | 9 :: r, pos, col => skip_ws_aux r (pos + 1) (col + 1)
  | 47 :: 47 :: r, pos, col => skip_comment_aux (47 :: 47 :: r) pos col
  | rest, pos, col => (rest, pos, col)

/-- Embedding of skip_whitespace of src/frontend/lexer.c. -/
def skip_whitespace (lx : Lexer) : Lexer :=
  let r := skip_ws_aux lx.rest lx.pos lx.column
  { lx with rest := r.1, pos := r.2.1, column := r.2.2 }

/-- Embedding of make_token of src/frontend/lexer.c: the length is the
distance scanned since the token start, the column points back at the
token start. -/
def make_token (t : TokenType) (srest : List Nat) (spos : Nat) (lx : Lexer) : Token :=
  let length := srest.length - lx.rest.length
  { type := t, start := spos, lexeme := srest.take length, length := length,
    line := lx.line, column := lx.column - length }

/-- Byte list of the message of the unterminated-string error token. -/
def msg_unterminated_string : List Nat :=
  [85, 110, 116, 101, 114, 109, 105, 110, 97, 116, 101, 100, 32, 115, 116,
   114, 105, 110, 103]

/-- Byte list of the message of the unexpected-character error token. -/
def msg_unexpected_character : List Nat :=
  [85, 110, 101, 120, 112, 101, 99, 116, 101, 100, 32, 99, 104, 97, 114,
   97, 99, 116, 101, 114]

/-- Embedding of error_token of src/frontend/lexer.c: the token carries
the static message as its text. -/
def error_token (message : List Nat) (lx : Lexer) : Token :=
  { type := .TOKEN_ERROR, start := 0, lexeme := message, length := message.length,
    line := lx.line, column := lx.column }

/-- Digit-consuming loops of number in src/frontend/lexer.c. -/
def take_digits : List Nat → Nat → Nat → List Nat × Nat × Nat
  | c :: r, pos, col =>
    if is_digit c then take_digits r (pos + 1) (col + 1) else (c :: r, pos, col)
  | [], pos, col => ([], pos, col)

/-- Identifier-consuming loop of identifier in src/frontend/lexer.c. -/
def take_ident : List Nat → Nat → Nat → List Nat × Nat × Nat
  | c :: r, pos, col =>
    if is_alpha c || is_digit c then take_ident r (pos + 1) (col + 1)
    else (c :: r, pos, col)
  | [], pos, col => ([], pos, col)

/-- String-body loop of string in src/frontend/lexer.c: stop at a
closing quote or at end of input; a newline inside the literal advances
the line counter and resets the column (the advance right after brings
it to 1).  Results are rest, position, line, column. -/
def take_string_body : List Nat → Nat → Nat → Nat → List Nat × Nat × Nat × Nat
  | [], pos, line, col => ([], pos, line, col)
  | 34 :: r, pos, line, col => (34 :: r, pos, line, col)
  | 10 :: r, pos, line, _ => take_string_body r (pos + 1) (line + 1) 1
  | _ :: r, pos, line, col => take_string_body r (pos + 1) line (col + 1)

/-- Embedding of memcmp over byte lists as check_keyword uses it: only
the first n bytes of each side are compared.  When n runs past either
list the C call reads out of bounds; the model compares what is there.
No settled claim evaluates the scanner on an identifier long enough to
reach that case. -/
def memcmp_bytes (a b : List Nat) (n : Nat) : Bool := a.take n == b.take n

/-- Embedding of check_keyword of src/frontend/lexer.c: compare the tail
of the lexeme from index skip against the remaining keyword bytes (with
the C string literal terminator appended), using the length-driven
memcmp of the C code.  Note the C code compares only length - skip
bytes and never the full keyword length, faithfully preserved here. -/
def check_keyword (lexeme : List Nat) (skip : Nat) (restKw : List Nat)
    (t : TokenType) : TokenType :=
  if memcmp_bytes (lexeme.drop skip) (restKw ++ [0]) (lexeme.length - skip) then t
  else .TOKEN_IDENTIFIER

/-- Embedding of identifier_type of src/frontend/lexer.c: the keyword
decision tree on the first bytes of the lexeme.  Byte literals spell the
keyword suffixes of the C string arguments. -/
def identifier_type (lexeme : List Nat) : TokenType :=
  let length := lexeme.length
  match lexeme.getD 0 0 with
  | 97 => check_keyword lexeme 1 [110, 100] .TOKEN_AND
  | 98 =>
    if 1 < length then
      match lexeme.getD 1 0 with
      | 111 => check_keyword lexeme 2 [111, 108] .TOKEN_TYPE_BOOL
      | 114 => check_keyword lexeme 2 [101, 97, 107] .TOKEN_BREAK
      | 121 => check_keyword lexeme 2 [116, 101] .TOKEN_TYPE_BYTE
      | _ => .TOKEN_IDENTIFIER
    else .TOKEN_IDENTIFIER
  | 99 => check_keyword lexeme 1 [111, 110, 116, 105, 110, 117, 101] .TOKEN_CONTINUE
  | 100 => check_keyword lexeme 1 [101, 102, 101, 114] .TOKEN_DEFER
  | 101 => check_keyword lexeme 1 [108, 115, 101] .TOKEN_ELSE
  | 102 =>
    if 1 < length then
      match lexeme.getD 1 0 with
      | 97 => check_keyword lexeme 2 [108, 115, 101] .TOKEN_FALSE
      | 108 => check_keyword lexeme 2 [111, 97, 116] .TOKEN_TYPE_FLOAT
      | 111 => check_keyword lexeme 2 [114] .TOKEN_FOR
      | _ => .TOKEN_IDENTIFIER
    else .TOKEN_IDENTIFIER
  | 105 =>
    if 1 < length then
      match lexeme.getD 1 0 with
      | 102 => if length = 2 then .TOKEN_IF else .TOKEN_IDENTIFIER
      | 109 => check_keyword lexeme 2 [112, 111, 114, 116] .TOKEN_IMPORT
      | 110 =>
        if length = 2 then .TOKEN_IN
        else check_keyword lexeme 2 [116] .TOKEN_TYPE_INT
      | _ => .TOKEN_IDENTIFIER
    else .TOKEN_IDENTIFIER
  | 108 =>
    if 1 < length then
      match lexeme.getD 1 0 with
      | 101 => check_keyword lexeme 2 [116] .TOKEN_LET
      | 111 => check_keyword lexeme 2 [111, 112] .TOKEN_LOOP
      | _ => .TOKEN_IDENTIFIER
    else .TOKEN_IDENTIFIER
  | 110 =>
    if 1 < length then
      match lexeme.getD 1 0 with
      | 105 => check_keyword lexeme 2 [108] .TOKEN_NIL
      | 111 => check_keyword lexeme 2 [116] .TOKEN_NOT
      | _ => .TOKEN_IDENTIFIER
    else .TOKEN_IDENTIFIER
  | 111 => check_keyword lexeme 1 [114] .TOKEN_OR
  | 112 => check_keyword lexeme 1 [97, 110, 105, 99] .TOKEN_PANIC
  | 114 => check_keyword lexeme 1 [101, 116, 117, 114, 110] .TOKEN_RETURN
  | 115 =>
    if 1 < length then
      match lexeme.getD 1 0 with
      | 112 =>
        if 2 < length && lexeme.getD 2 0 == 97 then
          check_keyword lexeme 3 [119, 110] .TOKEN_SPAWN
        else .TOKEN_IDENTIFIER
      | 116 =>
        if 2 < length && lexeme.getD 2 0 == 114 then
          if 3 < length && lexeme.getD 3 0 == 105 then
            check_keyword lexeme 4 [110, 103] .TOKEN_TYPE_STRING
          else check_keyword lexeme 3 [117, 99, 116] .TOKEN_STRUCT
        else .TOKEN_IDENTIFIER
      | _ => .TOKEN_IDENTIFIER
    else .TOKEN_IDENTIFIER
  | 116 =>
    if 1 < length then
      match lexeme.getD 1 0 with
      | 104 => check_keyword lexeme 2 [101, 110] .TOKEN_THEN
      | 114 => check_keyword lexeme 2 [117, 101] .TOKEN_TRUE
      | _ => .TOKEN_IDENTIFIER
    else .TOKEN_IDENTIFIER
  | 118 => check_keyword lexeme 1 [111, 105, 100] .TOKEN_TYPE_VOID
  | 119 => check_keyword lexeme 1 [104, 105, 108, 101] .TOKEN_WHILE
  | _ => .TOKEN_IDENTIFIER

/-- Number recognizer of src/frontend/lexer.c, entered with the first
digit already consumed: scan digits, then a decimal part when a dot is
followed by a digit, classifying int versus float. -/
def scan_number (srest : List Nat) (spos : Nat) (lx : Lexer) : Token × Lexer :=
  let d := take_digits lx.rest lx.pos lx.column
  let lx := { lx with rest := d.1, pos := d.2.1, column := d.2.2 }
  match lx.rest with
  | 46 :: c :: r =>
    if is_digit c then
      let d2 := take_digits (c :: r) (lx.pos + 1) (lx.column + 1)
      let lx := { lx with rest := d2.1, pos := d2.2.1, column := d2.2.2 }
      (make_token .TOKEN_FLOAT srest spos lx, lx)
    else (make_token .TOKEN_INT srest spos lx, lx)
  | _ => (make_token .TOKEN_INT srest spos lx, lx)

/-- Identifier recognizer of src/frontend/lexer.c, entered with the
first byte already consumed. -/
def scan_identifier (srest : List Nat) (spos : Nat) (lx : Lexer) : Token × Lexer :=
  let d := take_ident lx.rest lx.pos lx.column
  let lx := { lx with rest := d.1, pos := d.2.1, column := d.2.2 }
  let length := srest.length - lx.rest.length
  (make_token (identifier_type (srest.take length)) srest spos lx, lx)

/-- String recognizer of src/frontend/lexer.c, entered with the opening
quote already consumed: scan the body, fail on an unterminated literal,
otherwise consume the closing quote; the token slice includes both
quotes. -/
def scan_string (srest : List Nat) (spos : Nat) (lx : Lexer) : Token × Lexer :=
  let b := take_string_body lx.rest lx.pos lx.line lx.column
  let lx := { lx with rest := b.1, pos := b.2.1, line := b.2.2.1, column := b.2.2.2 }
  match lx.rest with
  | [] => (error_token msg_unterminated_string lx, lx)
  | _ :: r =>
    let lx := { lx with rest := r, pos := lx.pos + 1, column := lx.column + 1 }
    (make_token .TOKEN_STRING srest spos lx, lx)

/-- Two-character operator helper: the C pattern
make_token(match(lexer, second) ? two : one). -/
def one_or_two (lx : Lexer) (second : Nat) (two one : TokenType)
    (srest : List Nat) (spos : Nat) : Token × Lexer :=
  let m := match_char lx second
  (make_token (if m.1 then two else one) srest spos m.2, m.2)

/-- Embedding of lexer_next_token of src/frontend/lexer.c: skip
whitespace and comments, pin the token start, dispatch on the first
byte.  Returns the token and the state the C lexer is left in. -/
def lexer_next_token (lx0 : Lexer) : Token × Lexer :=
  let lx := skip_whitespace lx0
  let srest := lx.rest
  let spos := lx.pos
  match lx.rest with
  | [] => (make_token .TOKEN_EOF srest spos lx, lx)
  | c :: r =>
    let lx := { lx with rest := r, pos := lx.pos + 1, column := lx.column + 1 }
    if is_alpha c then scan_identifier srest spos lx
    else if is_digit c then scan_number srest spos lx
    else
      match c with
      | 40 => (make_token .TOKEN_LEFT_PAREN srest spos lx, lx)
      | 41 => (make_token .TOKEN_RIGHT_PAREN srest spos lx, lx)
      | 123 => (make_token .TOKEN_LEFT_BRACE srest spos lx, lx)
      | 125 => (make_token .TOKEN_RIGHT_BRACE srest spos lx, lx)
      | 91 => (make_token .TOKEN_LEFT_BRACKET srest spos lx, lx)
      | 93 => (make_token .TOKEN_RIGHT_BRACKET srest spos lx, lx)
      | 44 => (make_token .TOKEN_COMMA srest spos lx, lx)
      | 46 => one_or_two lx 46 .TOKEN_DOT_DOT .TOKEN_DOT srest spos
      | 58 => one_or_two lx 61 .TOKEN_COLON_EQUAL .TOKEN_COLON srest spos
      | 59 => (make_token .TOKEN_SEMICOLON srest spos lx, lx)
      | 43 => one_or_two lx 61 .TOKEN_PLUS_EQUAL .TOKEN_PLUS srest spos
      | 45 => one_or_two lx 61 .TOKEN_MINUS_EQUAL .TOKEN_MINUS srest spos
      | 42 => one_or_two lx 61 .TOKEN_STAR_EQUAL .TOKEN_STAR srest spos
      | 47 => one_or_two lx 61 .TOKEN_SLASH_EQUAL .TOKEN_SLASH srest spos
      | 37 => (make_token .TOKEN_PERCENT srest spos lx, lx)
      | 38 => (make_token .TOKEN_AMPERSAND srest spos lx, lx)
      | 124 => (make_token .TOKEN_PIPE srest spos lx, lx)
      | 94 => (make_token .TOKEN_CARET srest spos lx, lx)
      | 33 => one_or_two lx 61 .TOKEN_BANG_EQUAL .TOKEN_BANG srest spos
      | 61 => one_or_two lx 61 .TOKEN_EQUAL_EQUAL .TOKEN_EQUAL srest spos
      | 60 => one_or_two lx 61 .TOKEN_LESS_EQUAL .TOKEN_LESS srest spos
      | 62 => one_or_two lx 61 .TOKEN_GREATER_EQUAL .TOKEN_GREATER srest spos
      | 34 => scan_string srest spos lx
      | 10 =>
        let lx := { lx with line := lx.line + 1, column := 1 }
        (make_token .TOKEN_NEWLINE srest spos lx, lx)
      | _ => (error_token msg_unexpected_character lx, lx)

/-!
Support definitions for concrete executions used by the theorems below.
-/

/-- Native environment for runs whose chunks contain no OP_CALL_NATIVE;
the value is never consulted in those runs. -/
def natives_unused : Nat → Nat → List Value → Value := fun _ _ _ => Value.vnil

/-- Byte list of the variable name x. -/
def name_x : List Nat := [120]

/-- A source program with n distinct integer constants, one expression
statement per literal: used to exercise the constant-pool bound of
make_constant through the real compiler. -/
def const_program (n : Nat) : AstNode :=
  AstNode.program ((List.range n).map (fun i => AstNode.int_literal (Int.ofNat i)))

/-- The division-by-zero scenario of the specification: the statement
let x := 5 / 0. -/
def div_zero_program : AstNode :=
  AstNode.program
    [AstNode.let_stmt name_x
      (AstNode.binary_op BinOp.div (AstNode.int_literal 5) (AstNode.int_literal 0))]

/-- Concrete five-byte chunk with an unpatched forward jump at offset 1,
used to exercise patch_jump. -/
def jump_witness_compiler : Compiler :=
  { chunk := { code := [OP_JUMP, 255, 255, OP_POP, OP_POP], constants := [] },
    had_error := false, locals := [], errors := [], next_ptr := 0 }

/-- Concrete two-byte chunk used to exercise emit_loop. -/
def loop_witness_compiler : Compiler :=
  { chunk := { code := [OP_POP, OP_POP], constants := [] },
    had_error := false, locals := [], errors := [], next_ptr := 0 }

/-- Compiler whose chunk holds 70000 bytes: both jump offsets computed
against it overflow the 16-bit operand. -/
def big_code_compiler : Compiler :=
  { chunk := { code := List.replicate 70000 OP_POP, constants := [] },
    had_error := false, locals := [], errors := [], next_ptr := 0 }

/-- An if statement with a truthy literal condition and empty branches,
compiled by the embedded compiler: the witness chunk for the if-layout
theorem. -/
def if_witness_compiler : Compiler :=
  codegen_compile
    (AstNode.program
      [AstNode.if_stmt (AstNode.int_literal 1) (AstNode.block [])
        (some (AstNode.block []))])

/-!
Theorems.  Each claim of the specification audit is settled by exactly
one theorem named after it; auxiliary lemmas are shared.
-/

/-- Composition of traced runs: when m steps continue to state u, the
trace of m + n steps is the m-step trace followed by the n-step trace
from u. -/
theorem runTraceN_add (natives : Nat → Nat → List Value → Value) (ch : Chunk)
    (m : Nat) :
    ∀ (n : Nat) (vm u : VM) (tr : List Nat),
      runTraceN natives ch m vm = (StepOut.next u, tr) →
      runTraceN natives ch (m + n) vm =
        ((runTraceN natives ch n u).1, tr ++ (runTraceN natives ch n u).2) := by
  induction m with
  | zero =>
    intro n vm u tr h
    simp only [runTraceN] at h
    obtain ⟨h1, h2⟩ := Prod.mk.injEq .. ▸ h
    cases h1
    cases h2
    simp
  | succ k ih =>
    intro n vm u tr h
    simp only [runTraceN] at h
    cases hs : step natives ch vm with
    | next w =>
      rw [hs] at h
      have h1 : (runTraceN natives ch k w).1 = StepOut.next u := by
        have := congrArg Prod.fst h
        simpa using this
      have h2 : tr = vm.ip :: (runTraceN natives ch k w).2 := by
        have := congrArg Prod.snd h
        simpa using this.symm
      have hk : runTraceN natives ch k w = (StepOut.next u, (runTraceN natives ch k w).2) := by
        rw [← h1]
      have hrec := ih n w u (runTraceN natives ch k w).2 hk
      have : k + 1 + n = (k + n) + 1 := by omega
      rw [this]
      simp only [runTraceN, hs, hrec, h2]
      simp
    | halt w =>
      rw [hs] at h
      simp at h
    | fail msg =>
      rw [hs] at h
      simp at h

/-- C1 counterexample: a string value whose payload pointer is identical
to itself (both sides are the very same value, pointer id 7) compares
unequal under value_equal, refuting the claim that the comparison
returns true exactly when the payload pointers coincide, and in
particular refuting that a string compared with itself returns true. -/
theorem C1_counterexample :
    value_equal (Value.vstring 7 [104, 105]) (Value.vstring 7 [104, 105]) = false := by
  rfl

/-- C1 (amended): value_equal on two string operands returns false no
matter what the payload pointers are, because VALUE_STRING has no case
in the switch of value_equal and falls through to the default; in
particular a string compared with itself (identical payload pointer) is
unequal. -/
theorem C1_string_equal_always_false :
    ∀ (p1 : Nat) (c1 : List Nat) (p2 : Nat) (c2 : List Nat),
      value_equal (Value.vstring p1 c1) (Value.vstring p2 c2) = false := by
  intro p1 c1 p2 c2
  rfl

/-- C10: deleting one key makes another stored key unreachable.  From an
empty table, storing key a then key i places a at its home slot 4 and
i, which collides, at slot 5.  Both keys are then retrievable.  Deleting
a empties slot 4 outright (table_delete leaves no tombstone), so the
probe for i now stops at the empty slot 4 and table_get reports
not-found even though the entry for i still sits in slot 5.  This
evaluates the embedded code at the failing input and exhibits the
divergence from the claimed invariant. -/
theorem C10_delete_breaks_probe_chain :
    table_get (table_set (table_set table_init keyA (Value.vint 1)).2 keyI
      (Value.vint 2)).2 keyA = some (Value.vint 1) ∧
    table_get (table_set (table_set table_init keyA (Value.vint 1)).2 keyI
      (Value.vint 2)).2 keyI = some (Value.vint 2) ∧
    (table_delete (table_set (table_set table_init keyA (Value.vint 1)).2 keyI
      (Value.vint 2)).2 keyA).1 = true ∧
    table_get (table_delete (table_set (table_set table_init keyA (Value.vint 1)).2
      keyI (Value.vint 2)).2 keyA).2 keyI = none := by
  refine ⟨?_, ?_, ?_, ?_⟩ <;> decide

/-- C9: the four comparison opcodes never raise a type error.  With two
operands on the stack (b above a) and room to push the result, each of
OP_LESS, OP_LESS_EQUAL, OP_GREATER and OP_GREATER_EQUAL pops both
operands, coerces each through value_to_float and pushes a boolean,
whatever the operand types; and value_to_float silently maps every
non-numeric value (strings, nil, booleans, native functions, objects)
to 0. -/
theorem C9_comparisons_never_fail :
    (∀ (natives : Nat → Nat → List Value → Value) (ch : Chunk) (vm : VM)
        (a b : Value) (rest : List Value),
      vm.stack = b :: a :: rest →
      rest.length < SATORI_STACK_MAX →
      (ch.code[vm.ip]? = some OP_LESS →
        step natives ch vm = StepOut.next
          { vm with
              ip := vm.ip + 1,
              stack := Value.vbool (decide (value_to_float a < value_to_float b)) :: rest }) ∧
      (ch.code[vm.ip]? = some OP_LESS_EQUAL →
        step natives ch vm = StepOut.next
          { vm with
              ip := vm.ip + 1,
              stack := Value.vbool (decide (value_to_float a ≤ value_to_float b)) :: rest }) ∧
      (ch.code[vm.ip]? = some OP_GREATER →
        step natives ch vm = StepOut.next
          { vm with
              ip := vm.ip + 1,
              stack := Value.vbool (decide (value_to_float b < value_to_float a)) :: rest }) ∧
      (ch.code[vm.ip]? = some OP_GREATER_EQUAL →
        step natives ch vm = StepOut.next
          { vm with
              ip := vm.ip + 1,
              stack := Value.vbool (decide (value_to_float b ≤ value_to_float a)) :: rest })) ∧
    (∀ v : Value, is_number v = false → value_to_float v = 0) := by
  constructor
  · intro natives ch vm a b rest hstack hlen
    have hpush : ∀ u : Value, stack_push rest u = Except.ok (u :: rest) := by
      intro u
      simp only [stack_push, if_neg (Nat.not_le.mpr hlen)]
    refine ⟨?_, ?_, ?_, ?_⟩ <;>
      · intro hcode
        simp only [step, hcode, compare_step, pop2, stack_pop, hstack, hpush]
  · intro v hv
    cases v <;> simp_all [is_number, value_to_float]

/-- C9 witness: OP_LESS on two string operands succeeds and pushes
false (both coerce to 0), demonstrating the theorem at a concrete
instance. -/
theorem C9_witness :
    step natives_unused { code := [OP_LESS], constants := [] }
        { ip := 0, stack := [Value.vstring 1 [98], Value.vstring 0 [97]],
          locals := [], local_count := 0, globals := table_init,
          loaded_modules := table_init, initLog := [] } =
      StepOut.next
        { ip := 1, stack := [Value.vbool false], locals := [], local_count := 0,
          globals := table_init, loaded_modules := table_init, initLog := [] } := by
  have h := ((C9_comparisons_never_fail.1 natives_unused
      { code := [OP_LESS], constants := [] }
      { ip := 0, stack := [Value.vstring 1 [98], Value.vstring 0 [97]],
        locals := [], local_count := 0, globals := table_init,
        loaded_modules := table_init, initLog := [] }
      (Value.vstring 0 [97]) (Value.vstring 1 [98]) []
      rfl (by decide)).1) rfl
  simpa using h

/-- C4: the OP_CALL_NATIVE handler with operand n, on a stack whose
value at depth n is a native function, calls the native with n and the
n topmost values (in bottom-to-top slice order), removes the n
arguments and the callee, and pushes the single return value, for a net
stack decrease of n; when the value at depth n is not a native function
it fails fatally. -/
theorem C4_call_native :
    (∀ (natives : Nat → Nat → List Value → Value) (ch : Chunk) (vm : VM)
        (argc fnid : Nat) (args rest : List Value),
      vm.stack = args ++ Value.vnativeFn fnid :: rest →
      args.length = argc →
      vm.stack.length ≤ SATORI_STACK_MAX →
      ch.code[vm.ip]? = some OP_CALL_NATIVE →
      ch.code[vm.ip + 1]? = some argc →
      step natives ch vm = StepOut.next
        { vm with
            ip := vm.ip + 2,
            stack := natives fnid argc args.reverse :: rest } ∧
      (natives fnid argc args.reverse :: rest).length + argc = vm.stack.length) ∧
    (∀ (natives : Nat → Nat → List Value → Value) (ch : Chunk) (vm : VM)
        (argc : Nat) (callee : Value),
      ch.code[vm.ip]? = some OP_CALL_NATIVE →
      ch.code[vm.ip + 1]? = some argc →
      vm.stack[argc]? = some callee →
      (∀ fnid, callee ≠ Value.vnativeFn fnid) →
      step natives ch vm = StepOut.fail "Can only call native functions") := by
  constructor
  · intro natives ch vm argc fnid args rest hstack hargs hlen hcode hoperand
    have hpeek : vm.stack[argc]? = some (Value.vnativeFn fnid) := by
      rw [hstack, ← hargs]
      rw [List.getElem?_append_right (Nat.le_refl _)]
      simp
    have htake : vm.stack.take argc = args := by
      rw [hstack, ← hargs, List.take_left]
    have hdrop : vm.stack.drop (argc + 1) = rest := by
      rw [hstack, ← hargs]
      rw [show args.length + 1 = args.length + 1 from rfl]
      rw [List.drop_append_eq_append_drop]
      simp
    have hrest : rest.length < SATORI_STACK_MAX := by
      have : vm.stack.length = args.length + (rest.length + 1) := by
        rw [hstack]; simp
      omega
    have hpush : stack_push rest (natives fnid argc args.reverse) =
        Except.ok (natives fnid argc args.reverse :: rest) := by
      simp only [stack_push, if_neg (Nat.not_le.mpr hrest)]
    constructor
    · simp only [step, hcode, hoperand, hpeek, htake, hdrop, hpush]
    · have : vm.stack.length = args.length + (rest.length + 1) := by
        rw [hstack]; simp
      simp only [List.length_cons]
      omega
  · intro natives ch vm argc callee hcode hoperand hpeek hnofn
    cases callee with
    | vnativeFn fnid => exact absurd rfl (hnofn fnid)
    | vnil => simp only [step, hcode, hoperand, hpeek]
    | vbool b => simp only [step, hcode, hoperand, hpeek]
    | vint i => simp only [step, hcode, hoperand, hpeek]
    | vfloat f => simp only [step, hcode, hoperand, hpeek]
    | vstring p c => simp only [step, hcode, hoperand, hpeek]
    | vobj p => simp only [step, hcode, hoperand, hpeek]

/-- C4 witness: calling a native with two arguments removes callee and
arguments and pushes the returned value, and a non-native callee fails;
both at concrete inputs. -/
theorem C4_witness :
    step (fun _ _ args => Value.vint (Int.ofNat args.length))
        { code := [OP_CALL_NATIVE, 2], constants := [] }
        { ip := 0,
          stack := [Value.vint 9, Value.vint 8, Value.vnativeFn 5, Value.vbool true],
          locals := [], local_count := 0, globals := table_init,
          loaded_modules := table_init, initLog := [] } =
      StepOut.next
        { ip := 2, stack := [Value.vint 2, Value.vbool true], locals := [],
          local_count := 0, globals := table_init, loaded_modules := table_init,
          initLog := [] } ∧
    step natives_unused { code := [OP_CALL_NATIVE, 0], constants := [] }
        { ip := 0, stack := [Value.vint 7], locals := [], local_count := 0,
          globals := table_init, loaded_modules := table_init, initLog := [] } =
      StepOut.fail "Can only call native functions" := by
  constructor
  · have h := (C4_call_native.1 (fun _ _ args => Value.vint (Int.ofNat args.length))
      { code := [OP_CALL_NATIVE, 2], constants := [] }
      { ip := 0,
        stack := [Value.vint 9, Value.vint 8, Value.vnativeFn 5, Value.vbool true],
        locals := [], local_count := 0, globals := table_init,
        loaded_modules := table_init, initLog := [] }
      2 5 [Value.vint 9, Value.vint 8] [Value.vbool true]
      rfl rfl (by decide) rfl rfl).1
    simpa using h
  · exact C4_call_native.2 natives_unused { code := [OP_CALL_NATIVE, 0], constants := [] }
      { ip := 0, stack := [Value.vint 7], locals := [], local_count := 0,
        globals := table_init, loaded_modules := table_init, initLog := [] }
      0 (Value.vint 7) rfl rfl rfl (fun fnid h => by cases h)

/-- Numeric values are exactly the int and float variants. -/
theorem is_number_elim {v : Value} (h : is_number v = true) :
    (∃ i, v = Value.vint i) ∨ (∃ f, v = Value.vfloat f) := by
  cases v <;> simp_all [is_number]

/-- C3: OP_DIVIDE on numeric operands always pushes a float (even for
two int operands), and it fails with the Division by zero diagnostic
exactly when the divisor coerced to float is 0; moreover the program
let x := 5 / 0 compiles without error and its run fails at OP_DIVIDE
with that diagnostic.  Non-numeric operands make the C handler read
unspecified union bits, which is outside the model. -/
theorem C3_divide_always_float_fails_iff_zero :
    (∀ (natives : Nat → Nat → List Value → Value) (ch : Chunk) (vm : VM)
        (a b : Value) (rest : List Value),
      vm.stack = b :: a :: rest →
      rest.length < SATORI_STACK_MAX →
      is_number a = true →
      is_number b = true →
      ch.code[vm.ip]? = some OP_DIVIDE →
      (value_to_float b = 0 →
        step natives ch vm = StepOut.fail "Division by zero") ∧
      (value_to_float b ≠ 0 →
        step natives ch vm = StepOut.next
          { vm with
              ip := vm.ip + 1,
              stack := Value.vfloat (value_to_float a / value_to_float b) :: rest })) ∧
    ((codegen_compile div_zero_program).had_error = false ∧
      runN natives_unused (codegen_compile div_zero_program).chunk 3 vm_make =
        StepOut.fail "Division by zero") := by
  constructor
  · intro natives ch vm a b rest hstack hlen hna hnb hcode
    have hpush : ∀ u : Value, stack_push rest u = Except.ok (u :: rest) := by
      intro u
      simp only [stack_push, if_neg (Nat.not_le.mpr hlen)]
    rcases is_number_elim hna with ⟨ia, rfl⟩ | ⟨fa, rfl⟩ <;>
      rcases is_number_elim hnb with ⟨ib, rfl⟩ | ⟨fb, rfl⟩ <;>
      · constructor
        · intro hz
          simp only [value_to_float] at hz
          simp only [step, hcode, pop2, stack_pop, hstack, as_float_operand,
            value_to_float, hpush, if_pos hz]
        · intro hz
          simp only [value_to_float] at hz
          simp only [step, hcode, pop2, stack_pop, hstack, as_float_operand,
            value_to_float, hpush, if_neg hz]
  · constructor
    · decide
    · decide

/-- C3 witness: 6 divided by 3 (two int operands) pushes the float 2,
and 5 divided by 0 fails, at concrete machine states. -/
theorem C3_witness :
    step natives_unused { code := [OP_DIVIDE], constants := [] }
        { ip := 0, stack := [Value.vint 3, Value.vint 6], locals := [],
          local_count := 0, globals := table_init, loaded_modules := table_init,
          initLog := [] } =
      StepOut.next
        { ip := 1, stack := [Value.vfloat 2], locals := [], local_count := 0,
          globals := table_init, loaded_modules := table_init, initLog := [] } ∧
    step natives_unused { code := [OP_DIVIDE], constants := [] }
        { ip := 0, stack := [Value.vint 0, Value.vint 5], locals := [],
          local_count := 0, globals := table_init, loaded_modules := table_init,
          initLog := [] } =
      StepOut.fail "Division by zero" := by
  constructor
  · have h := ((C3_divide_always_float_fails_iff_zero.1 natives_unused
      { code := [OP_DIVIDE], constants := [] }
      { ip := 0, stack := [Value.vint 3, Value.vint 6], locals := [],
        local_count := 0, globals := table_init, loaded_modules := table_init,
        initLog := [] }
      (Value.vint 6) (Value.vint 3) []
      rfl (by decide) rfl rfl rfl).2) (by decide)
    simpa [value_to_float, show (6 : Rat) / 3 = 2 by norm_num] using h
  · exact ((C3_divide_always_float_fails_iff_zero.1 natives_unused
      { code := [OP_DIVIDE], constants := [] }
      { ip := 0, stack := [Value.vint 0, Value.vint 5], locals := [],
        local_count := 0, globals := table_init, loaded_modules := table_init,
        initLog := [] }
      (Value.vint 5) (Value.vint 0) []
      rfl (by decide) rfl rfl rfl).1) (by decide)

/-- Behaviour of make_constant while the pool is not yet full. -/
theorem make_constant_ok (c : Compiler) (v : Value)
    (h : c.chunk.constants.length ≤ 255) :
    make_constant c v =
      ({ c with chunk := { c.chunk with constants := c.chunk.constants ++ [v] } },
        c.chunk.constants.length) := by
  simp only [make_constant, chunk_add_constant]
  rw [if_neg (by omega)]

/-- Behaviour of make_constant once the pool already holds 256 values. -/
theorem make_constant_overflow (c : Compiler) (v : Value)
    (h : 256 ≤ c.chunk.constants.length) :
    make_constant c v =
      ({ c with chunk := { c.chunk with constants := c.chunk.constants ++ [v] },
                had_error := true,
                errors := c.errors ++ ["Too many constants in one chunk"] }, 0) := by
  simp only [make_constant, chunk_add_constant]
  rw [if_pos (by omega)]

/-- Unfolding equation of compile_node on a program node. -/
theorem compile_node_program (c : Compiler) (l : List AstNode) :
    compile_node c (AstNode.program l) = compile_list c l := by
  simp [compile_node]

/-- Unfolding equation of compile_list on a cons cell. -/
theorem compile_list_cons (c : Compiler) (x : AstNode) (l : List AstNode) :
    compile_list c (x :: l) = compile_list (compile_node c x) l := by
  simp [compile_list]

/-- Unfolding equation of compile_list on the empty list. -/
theorem compile_list_nil (c : Compiler) : compile_list c [] = c := by
  simp [compile_list]

/-- Unfolding equation of compile_node on an int literal. -/
theorem compile_node_int_literal (c : Compiler) (v : Int) :
    compile_node c (AstNode.int_literal v) =
      emit_bytes (make_constant c (Value.vint v)).1 OP_CONSTANT
        (make_constant c (Value.vint v)).2 := by
  simp [compile_node]

/-- The emit helpers never touch the error flag or the error log. -/
theorem emit_byte_had_error (c : Compiler) (b : Nat) :
    (emit_byte c b).had_error = c.had_error := rfl

/-- Emit helpers preserve the error log. -/
theorem emit_byte_errors (c : Compiler) (b : Nat) :
    (emit_byte c b).errors = c.errors := rfl

/-- Two-byte emission preserves the error flag. -/
theorem emit_bytes_had_error (c : Compiler) (b1 b2 : Nat) :
    (emit_bytes c b1 b2).had_error = c.had_error := rfl

/-- Two-byte emission preserves the error log. -/
theorem emit_bytes_errors (c : Compiler) (b1 b2 : Nat) :
    (emit_bytes c b1 b2).errors = c.errors := rfl

/-- Compiling a list of statements distributes over append. -/
theorem compile_list_append (l1 : List AstNode) :
    ∀ (c : Compiler) (l2 : List AstNode),
      compile_list c (l1 ++ l2) = compile_list (compile_list c l1) l2 := by
  induction l1 with
  | nil => intro c l2; rfl
  | cons x xs ih =>
    intro c l2
    simp only [List.cons_append, compile_list]
    exact ih _ _

/-- Compiling integer-literal statements while room remains in the pool
adds one constant each and raises no error. -/
theorem compile_int_literal_stmts :
    ∀ (l : List AstNode), (∀ a ∈ l, ∃ i, a = AstNode.int_literal i) →
      ∀ (c : Compiler),
        c.chunk.constants.length + l.length ≤ 256 →
        (compile_list c l).had_error = c.had_error ∧
        (compile_list c l).chunk.constants.length =
          c.chunk.constants.length + l.length ∧
        (compile_list c l).errors = c.errors := by
  intro l
  induction l with
  | nil =>
    intro _ c _
    exact ⟨rfl, by simp [compile_list], rfl⟩
  | cons x xs ih =>
    intro hshape c hroom
    obtain ⟨i, rfl⟩ := hshape x (List.mem_cons_self x xs)
    have hle : c.chunk.constants.length ≤ 255 := by
      simp only [List.length_cons] at hroom
      omega
    have hmc := make_constant_ok c (Value.vint i) hle
    have hxs : ∀ a ∈ xs, ∃ j, a = AstNode.int_literal j := by
      intro a ha
      exact hshape a (List.mem_cons_of_mem _ ha)
    have hrec := ih hxs (compile_node c (AstNode.int_literal i)) (by
      have hconst : (compile_node c (AstNode.int_literal i)).chunk.constants =
          c.chunk.constants ++ [Value.vint i] := by
        simp [compile_node, hmc, emit_bytes, emit_byte, chunk_write]
      rw [hconst]
      simp only [List.length_append, List.length_cons, List.length_nil] at hroom ⊢
      omega)
    refine ⟨?_, ?_, ?_⟩
    · rw [show compile_list c (AstNode.int_literal i :: xs) =
          compile_list (compile_node c (AstNode.int_literal i)) xs from rfl]
      rw [hrec.1]
      simp [compile_node, hmc, emit_bytes, emit_byte, chunk_write]
    · rw [show compile_list c (AstNode.int_literal i :: xs) =
          compile_list (compile_node c (AstNode.int_literal i)) xs from rfl]
      rw [hrec.2.1]
      have hconst : (compile_node c (AstNode.int_literal i)).chunk.constants =
          c.chunk.constants ++ [Value.vint i] := by
        simp [compile_node, hmc, emit_bytes, emit_byte, chunk_write]
      rw [hconst]
      simp only [List.length_append, List.length_cons, List.length_nil]
      omega
    · rw [show compile_list c (AstNode.int_literal i :: xs) =
          compile_list (compile_node c (AstNode.int_literal i)) xs from rfl]
      rw [hrec.2.2]
      simp [compile_node, hmc, emit_bytes, emit_byte, chunk_write]

/-- C7: chunk_add_constant appends and returns the old pool count, so
make_constant returns the pool index and leaves the error state alone
while at most 256 constants exist (indices 0 to 255), and the 257th
append (index 256) reports Too many constants in one chunk and sets the
error flag; consequently a program with 256 integer literals compiles
clean and one with 257 does not. -/
theorem C7_constant_pool_bound :
    (∀ (ch : Chunk) (v : Value),
      (chunk_add_constant ch v).1 = ch.constants.length ∧
      (chunk_add_constant ch v).2.constants = ch.constants ++ [v]) ∧
    (∀ (c : Compiler) (v : Value),
      c.chunk.constants.length ≤ 255 →
      (make_constant c v).2 = c.chunk.constants.length ∧
      (make_constant c v).1.had_error = c.had_error ∧
      (make_constant c v).1.errors = c.errors) ∧
    (∀ (c : Compiler) (v : Value),
      256 ≤ c.chunk.constants.length →
      (make_constant c v).1.had_error = true ∧
      "Too many constants in one chunk" ∈ (make_constant c v).1.errors) ∧
    ((codegen_compile (const_program 256)).had_error = false ∧
      (codegen_compile (const_program 257)).had_error = true ∧
      "Too many constants in one chunk" ∈ (codegen_compile (const_program 257)).errors) := by
  have hshape : ∀ (n : Nat) (a : AstNode),
      a ∈ (List.range n).map (fun i => AstNode.int_literal (Int.ofNat i)) →
      ∃ j, a = AstNode.int_literal j := by
    intro n a ha
    obtain ⟨i, _, rfl⟩ := List.mem_map.mp ha
    exact ⟨Int.ofNat i, rfl⟩
  have h256 := compile_int_literal_stmts
    ((List.range 256).map (fun i => AstNode.int_literal (Int.ofNat i)))
    (hshape 256) compiler_make (by simp [compiler_make])
  have hsplit : (List.range 257).map (fun i => AstNode.int_literal (Int.ofNat i)) =
      (List.range 256).map (fun i => AstNode.int_literal (Int.ofNat i)) ++
        [AstNode.int_literal (Int.ofNat 256)] := by
    rw [List.range_succ, List.map_append]
    rfl
  have hfull : 256 ≤ (compile_list compiler_make
      ((List.range 256).map (fun i => AstNode.int_literal (Int.ofNat i)))).chunk.constants.length := by
    rw [h256.2.1]
    simp [compiler_make]
  have hover := make_constant_overflow
    (compile_list compiler_make
      ((List.range 256).map (fun i => AstNode.int_literal (Int.ofNat i))))
    (Value.vint (Int.ofNat 256)) hfull
  refine ⟨?_, ?_, ?_, ?_, ?_, ?_⟩
  · intro ch v
    exact ⟨rfl, rfl⟩
  · intro c v h
    rw [make_constant_ok c v h]
    exact ⟨rfl, rfl, rfl⟩
  · intro c v h
    rw [make_constant_overflow c v (by omega)]
    refine ⟨rfl, ?_⟩
    simp
  · simp only [codegen_compile, const_program]
    rw [compile_node_program, emit_byte_had_error, h256.1]
    rfl
  · simp only [codegen_compile, const_program]
    rw [hsplit, compile_node_program, compile_list_append, compile_list_cons,
        compile_list_nil, compile_node_int_literal, hover]
    rfl
  · simp only [codegen_compile, const_program]
    rw [hsplit, compile_node_program, compile_list_append, compile_list_cons,
        compile_list_nil, compile_node_int_literal, hover]
    rw [emit_byte_errors, emit_bytes_errors]
    simp [h256.2.2, compiler_make]

/-- C7 witness: the fresh compiler (empty pool) takes a constant at
index 0 without error, and a compiler whose pool already holds 256
values rejects the next constant with the overflow diagnostic. -/
theorem C7_witness :
    ((make_constant compiler_make (Value.vint 41)).2 = 0 ∧
      (make_constant compiler_make (Value.vint 41)).1.had_error = false) ∧
    ((make_constant
        { chunk := { code := [], constants := List.replicate 256 (Value.vint 0) },
          had_error := false, locals := [], errors := [], next_ptr := 0 }
        (Value.vint 41)).1.had_error = true ∧
      "Too many constants in one chunk" ∈
        (make_constant
          { chunk := { code := [], constants := List.replicate 256 (Value.vint 0) },
            had_error := false, locals := [], errors := [], next_ptr := 0 }
          (Value.vint 41)).1.errors) := by
  constructor
  · have h := C7_constant_pool_bound.2.1 compiler_make (Value.vint 41) (by decide)
    exact ⟨h.1, h.2.1⟩
  · exact C7_constant_pool_bound.2.2.1
      { chunk := { code := [], constants := List.replicate 256 (Value.vint 0) },
        had_error := false, locals := [], errors := [], next_ptr := 0 }
      (Value.vint 41) (by simp)

/-- C5: for each name in the builtin registry (io and string), loading
it twice into a fresh VM succeeds both times, runs the initializer
exactly once (the ghost log holds exactly that one call), and the
second load returns the state of the first one unchanged — in
particular the globals table is identical; and OP_IMPORT of a name
absent from the registry and not already loaded fails fatally. -/
theorem C5_module_load_idempotent :
    (∀ name : List Nat, name = name_io ∨ name = name_string →
      (module_load vm_make name).1 = true ∧
      (module_load vm_make name).2.initLog = [name] ∧
      (module_load (module_load vm_make name).2 name).1 = true ∧
      (module_load (module_load vm_make name).2 name).2 = (module_load vm_make name).2) ∧
    (∀ (natives : Nat → Nat → List Value → Value) (ch : Chunk) (vm : VM)
        (idx p : Nat) (name : List Nat),
      ch.code[vm.ip]? = some OP_IMPORT →
      ch.code[vm.ip + 1]? = some idx →
      ch.constants[idx]? = some (Value.vstring p name) →
      registry_lookup name = none →
      table_get vm.loaded_modules name = none →
      step natives ch vm = StepOut.fail "Failed to load module") := by
  constructor
  · intro name h
    rcases h with rfl | rfl
    · exact ⟨by decide, by decide, by decide, by decide⟩
    · exact ⟨by decide, by decide, by decide, by decide⟩
  · intro natives ch vm idx p name hcode hidx hconst hreg hload
    simp only [step, hcode, hidx, hconst, module_load, hreg, hload]

/-- C5 witness: the io module at the concrete fresh VM, and OP_IMPORT
of the unregistered name math failing on a concrete chunk. -/
theorem C5_witness :
    ((module_load vm_make name_io).1 = true ∧
      (module_load vm_make name_io).2.initLog = [name_io] ∧
      (module_load (module_load vm_make name_io).2 name_io).2 =
        (module_load vm_make name_io).2) ∧
    step natives_unused
        { code := [OP_IMPORT, 0],
          constants := [Value.vstring 0 [109, 97, 116, 104]] } vm_make =
      StepOut.fail "Failed to load module" := by
  constructor
  · have h := C5_module_load_idempotent.1 name_io (Or.inl rfl)
    exact ⟨h.1, h.2.1, h.2.2.2⟩
  · exact C5_module_load_idempotent.2 natives_unused
      { code := [OP_IMPORT, 0], constants := [Value.vstring 0 [109, 97, 116, 104]] }
      vm_make 0 0 [109, 97, 116, 104] rfl rfl rfl (by rfl) (by decide)

/-- C6: patch_jump(site) stores the big-endian offset current - site - 2
in the two bytes at site, and executing the patched OP_JUMP (sitting
just before its operand bytes) lands the cursor exactly at the
instruction address that was current at patch time; the OP_LOOP operand
emitted by emit_loop equals current + 3 - loop_start and executing it
returns the cursor exactly to loop_start; each offset above 65535 sets
the error flag with its diagnostic instead (patch_jump then leaves the
code unwritten, emit_loop has already emitted only the opcode byte). -/
theorem C6_jump_patching_exact :
    (∀ (c : Compiler) (site : Nat) (natives : Nat → Nat → List Value → Value) (vm : VM),
      1 ≤ site →
      site + 2 ≤ c.chunk.code.length →
      c.chunk.code.length - site - 2 ≤ 0xffff →
      (patch_jump c site).chunk.code =
        (c.chunk.code.set site ((c.chunk.code.length - site - 2) / 256)).set (site + 1)
          ((c.chunk.code.length - site - 2) % 256) ∧
      (patch_jump c site).had_error = c.had_error ∧
      (c.chunk.code[site - 1]? = some OP_JUMP →
        vm.ip = site - 1 →
        step natives (patch_jump c site).chunk vm =
          StepOut.next { vm with ip := c.chunk.code.length })) ∧
    (∀ (c : Compiler) (site : Nat),
      0xffff < c.chunk.code.length - site - 2 →
      (patch_jump c site).had_error = true ∧
      "Too much code to jump over" ∈ (patch_jump c site).errors ∧
      (patch_jump c site).chunk = c.chunk) ∧
    (∀ (c : Compiler) (loop_start : Nat) (natives : Nat → Nat → List Value → Value) (vm : VM),
      loop_start ≤ c.chunk.code.length →
      c.chunk.code.length + 3 - loop_start ≤ 0xffff →
      (emit_loop c loop_start).chunk.code =
        c.chunk.code ++ [OP_LOOP, (c.chunk.code.length + 3 - loop_start) / 256,
          (c.chunk.code.length + 3 - loop_start) % 256] ∧
      (emit_loop c loop_start).had_error = c.had_error ∧
      (vm.ip = c.chunk.code.length →
        step natives (emit_loop c loop_start).chunk vm =
          StepOut.next { vm with ip := loop_start })) ∧
    (∀ (c : Compiler) (loop_start : Nat),
      loop_start ≤ c.chunk.code.length →
      0xffff < c.chunk.code.length + 3 - loop_start →
      (emit_loop c loop_start).had_error = true ∧
      "Loop body too large" ∈ (emit_loop c loop_start).errors ∧
      (emit_loop c loop_start).chunk.code = c.chunk.code ++ [OP_LOOP]) := by
  refine ⟨?_, ?_, ?_, ?_⟩
  · intro c site natives vm hsite hlen hfit
    have hcode : (patch_jump c site).chunk.code =
        (c.chunk.code.set site ((c.chunk.code.length - site - 2) / 256)).set (site + 1)
          ((c.chunk.code.length - site - 2) % 256) := by
      simp only [patch_jump]
      rw [if_neg (by omega)]
    have herr : (patch_jump c site).had_error = c.had_error := by
      simp only [patch_jump]
      rw [if_neg (by omega)]
    refine ⟨hcode, herr, ?_⟩
    intro hop hip
    have hread0 : (patch_jump c site).chunk.code[vm.ip]? = some OP_JUMP := by
      rw [hcode, hip]
      rw [List.getElem?_set_ne (by omega), List.getElem?_set_ne (by omega)]
      exact hop
    have hread1 : (patch_jump c site).chunk.code[vm.ip + 1]? =
        some ((c.chunk.code.length - site - 2) / 256) := by
      rw [hcode, show vm.ip + 1 = site from by omega]
      rw [List.getElem?_set_ne (by omega)]
      exact List.getElem?_set_self (by simpa using by omega)
    have hread2 : (patch_jump c site).chunk.code[vm.ip + 2]? =
        some ((c.chunk.code.length - site - 2) % 256) := by
      rw [hcode, show vm.ip + 2 = site + 1 from by omega]
      exact List.getElem?_set_self (by simpa using by omega)
    simp only [step, hread0, hread1, hread2]
    have : vm.ip + 3 + ((c.chunk.code.length - site - 2) / 256 * 256 +
        (c.chunk.code.length - site - 2) % 256) = c.chunk.code.length := by
      have := Nat.div_add_mod (c.chunk.code.length - site - 2) 256
      omega
    rw [this]
  · intro c site hbig
    simp only [patch_jump]
    rw [if_pos (by omega)]
    exact ⟨rfl, by simp, rfl⟩
  · intro c loop_start natives vm hls hfit
    have hoff : (emit_byte c OP_LOOP).chunk.code.length - loop_start + 2 =
        c.chunk.code.length + 3 - loop_start := by
      simp only [emit_byte, chunk_write, List.length_append, List.length_cons,
        List.length_nil]
      omega
    have hcode : (emit_loop c loop_start).chunk.code =
        c.chunk.code ++ [OP_LOOP, (c.chunk.code.length + 3 - loop_start) / 256,
          (c.chunk.code.length + 3 - loop_start) % 256] := by
      simp only [emit_loop, hoff]
      rw [if_neg (by omega)]
      have e2 : (c.chunk.code.length + 3 - loop_start) / 256 % 256 =
          (c.chunk.code.length + 3 - loop_start) / 256 := by omega
      have e3 : (c.chunk.code.length + 3 - loop_start) % 256 % 256 =
          (c.chunk.code.length + 3 - loop_start) % 256 := by omega
      simp [emit_byte, chunk_write, e2, e3]
      decide
    have herr : (emit_loop c loop_start).had_error = c.had_error := by
      simp only [emit_loop, hoff]
      rw [if_neg (by omega)]
      rfl
    refine ⟨hcode, herr, ?_⟩
    intro hip
    have hread0 : (emit_loop c loop_start).chunk.code[vm.ip]? = some OP_LOOP := by
      rw [hcode, hip, List.getElem?_append_right (Nat.le_refl _)]
      simp
    have hread1 : (emit_loop c loop_start).chunk.code[vm.ip + 1]? =
        some ((c.chunk.code.length + 3 - loop_start) / 256) := by
      rw [hcode, hip, List.getElem?_append_right (by omega)]
      simp
    have hread2 : (emit_loop c loop_start).chunk.code[vm.ip + 2]? =
        some ((c.chunk.code.length + 3 - loop_start) % 256) := by
      rw [hcode, hip, List.getElem?_append_right (by omega)]
      simp
    simp only [step, hread0, hread1, hread2]
    have hsum : (c.chunk.code.length + 3 - loop_start) / 256 * 256 +
        (c.chunk.code.length + 3 - loop_start) % 256 =
        c.chunk.code.length + 3 - loop_start := by omega
    rw [hsum, if_neg (by omega), hip]
    rw [show c.chunk.code.length + 3 - (c.chunk.code.length + 3 - loop_start) =
      loop_start from by omega]
  · intro c loop_start hls hbig
    have hoff : (emit_byte c OP_LOOP).chunk.code.length - loop_start + 2 =
        c.chunk.code.length + 3 - loop_start := by
      simp only [emit_byte, chunk_write, List.length_append, List.length_cons,
        List.length_nil]
      omega
    simp only [emit_loop, hoff]
    rw [if_pos (by omega)]
    refine ⟨rfl, by simp, ?_⟩
    simp [emit_byte, chunk_write]
    decide

/-- Helper: the big witness chunk has 70000 code bytes. -/
theorem big_code_compiler_length : big_code_compiler.chunk.code.length = 70000 := by
  rw [show big_code_compiler.chunk.code = List.replicate 70000 OP_POP from rfl]
  exact List.length_replicate 70000 OP_POP

/-- C6 witness: a concrete five-byte chunk in which the patched forward
jump lands one past the end, a concrete loop returning to address 0,
and concrete oversized chunks triggering both diagnostics. -/
theorem C6_witness :
    ((patch_jump jump_witness_compiler 1).chunk.code =
        [OP_JUMP, 0, 2, OP_POP, OP_POP] ∧
      step natives_unused (patch_jump jump_witness_compiler 1).chunk vm_make =
        StepOut.next { vm_make with ip := 5 }) ∧
    ((patch_jump big_code_compiler 1).had_error = true ∧
      "Too much code to jump over" ∈ (patch_jump big_code_compiler 1).errors) ∧
    ((emit_loop loop_witness_compiler 0).chunk.code =
        [OP_POP, OP_POP, OP_LOOP, 0, 5] ∧
      step natives_unused (emit_loop loop_witness_compiler 0).chunk
          { vm_make with ip := 2 } =
        StepOut.next { vm_make with ip := 0 }) ∧
    ((emit_loop big_code_compiler 0).had_error = true ∧
      "Loop body too large" ∈ (emit_loop big_code_compiler 0).errors) := by
  have hbig : (0xffff : Nat) < big_code_compiler.chunk.code.length - 1 - 2 := by
    rw [big_code_compiler_length]
    omega
  have hbig2 : (0xffff : Nat) < big_code_compiler.chunk.code.length + 3 - 0 := by
    rw [big_code_compiler_length]
    omega
  have hbig0 : (0 : Nat) ≤ big_code_compiler.chunk.code.length := Nat.zero_le _
  refine ⟨⟨?_, ?_⟩, ?_, ⟨?_, ?_⟩, ?_⟩
  · have h := (C6_jump_patching_exact.1 jump_witness_compiler 1
      natives_unused vm_make (by decide) (by decide) (by decide)).1
    rw [h]
    decide
  · have h := (C6_jump_patching_exact.1 jump_witness_compiler 1
      natives_unused vm_make (by decide) (by decide) (by decide)).2.2
      (by decide) rfl
    simpa using h
  · have h := C6_jump_patching_exact.2.1 big_code_compiler 1 hbig
    exact ⟨h.1, h.2.1⟩
  · have h := (C6_jump_patching_exact.2.2.1 loop_witness_compiler 0
      natives_unused { vm_make with ip := 2 } (by decide) (by decide)).1
    rw [h]
    decide
  · have h := (C6_jump_patching_exact.2.2.1 loop_witness_compiler 0
      natives_unused { vm_make with ip := 2 } (by decide) (by decide)).2.2 rfl
    simpa using h
  · have h := C6_jump_patching_exact.2.2.2 big_code_compiler 0 hbig0 hbig2
    exact ⟨h.1, h.2.1⟩

/-- C8 counterexample: scanning the two-byte source consisting of the
minus byte followed by the greater byte produces a TOKEN_MINUS of
length 1 and then a separate TOKEN_GREATER, not a single two-character
arrow token: the minus case of lexer_next_token looks ahead only for
the equal byte. -/
theorem C8_counterexample :
    (lexer_next_token (lexer_new [45, 62])).1.type = TokenType.TOKEN_MINUS ∧
    (lexer_next_token (lexer_new [45, 62])).1.length = 1 ∧
    (lexer_next_token (lexer_next_token (lexer_new [45, 62])).2).1.type =
      TokenType.TOKEN_GREATER := by
  refine ⟨?_, ?_, ?_⟩ <;> decide

/-- C8 (amended): whenever the scanner reaches a minus byte immediately
followed by a greater byte, it emits TOKEN_MINUS of length 1 and leaves
the greater byte unconsumed (to be scanned as its own token), because
the minus case fuses only minus-equal; the declared TOKEN_ARROW kind is
never produced. -/
theorem C8_minus_never_fuses_arrow :
    ∀ (rest : List Nat) (pos line col : Nat),
      (lexer_next_token ⟨45 :: 62 :: rest, pos, line, col⟩).1.type =
        TokenType.TOKEN_MINUS ∧
      (lexer_next_token ⟨45 :: 62 :: rest, pos, line, col⟩).1.length = 1 ∧
      (lexer_next_token ⟨45 :: 62 :: rest, pos, line, col⟩).2.rest = 62 :: rest := by
  intro rest pos line col
  refine ⟨rfl, ?_, rfl⟩
  simp only [lexer_next_token, skip_whitespace, skip_ws_aux, one_or_two,
    match_char, make_token, is_alpha, is_digit]
  simp [List.length_cons]

/-- Single traced step from a continuing state. -/
theorem runTraceN_one (natives : Nat → Nat → List Value → Value) (ch : Chunk)
    (vm u : VM) (h : step natives ch vm = StepOut.next u) :
    runTraceN natives ch 1 vm = (StepOut.next u, [vm.ip]) := by
  simp [runTraceN, h]

/-- C2: the compiled if layout.  The chunk holds OP_JUMP_IF_FALSE at
jif whose patched operand targets the pop at jmp + 3, OP_POP at
jif + 3, OP_JUMP at jmp whose operand targets endIp, and OP_POP at
jmp + 3, with the then code in between and the else code after the
second pop — exactly what compile_node emits for AST_IF after
patch_jump.  From any state at jif whose stack holds the condition v
over S0, given that each branch body runs to its exit with net-zero
stack effect without touching the two pop sites: the jump instruction
itself leaves v on top whether or not it jumps, and the whole statement
runs to endIp with stack S0, executing an instruction at exactly one of
the two pop sites once — so exactly one OP_POP removes the condition
and the net stack effect is zero. -/
theorem C2_if_pop_protocol
    (natives : Nat → Nat → List Value → Value) (ch : Chunk)
    (jif jmp endIp : Nat) (vmJ vmT vmE : VM) (v : Value) (S0 : List Value)
    (nT nE : Nat) (trT trE : List Nat)
    (hji : jif + 4 ≤ jmp) (hend : jmp + 4 ≤ endIp)
    (hcJ : ch.code[jif]? = some OP_JUMP_IF_FALSE)
    (hcJ1 : ch.code[jif + 1]? = some ((jmp - jif) / 256))
    (hcJ2 : ch.code[jif + 2]? = some ((jmp - jif) % 256))
    (hcP1 : ch.code[jif + 3]? = some OP_POP)
    (hcM : ch.code[jmp]? = some OP_JUMP)
    (hcM1 : ch.code[jmp + 1]? = some ((endIp - jmp - 3) / 256))
    (hcM2 : ch.code[jmp + 2]? = some ((endIp - jmp - 3) % 256))
    (hcP2 : ch.code[jmp + 3]? = some OP_POP)
    (hip : vmJ.ip = jif) (hstk : vmJ.stack = v :: S0)
    (hThen : runTraceN natives ch nT { vmJ with ip := jif + 4, stack := S0 } =
      (StepOut.next vmT, trT))
    (hTip : vmT.ip = jmp) (hTstk : vmT.stack = S0)
    (hTavoid : ∀ i ∈ trT, i ≠ jif + 3 ∧ i ≠ jmp + 3)
    (hElse : runTraceN natives ch nE { vmJ with ip := jmp + 4, stack := S0 } =
      (StepOut.next vmE, trE))
    (hEip : vmE.ip = endIp) (hEstk : vmE.stack = S0)
    (hEavoid : ∀ i ∈ trE, i ≠ jif + 3 ∧ i ≠ jmp + 3) :
    (∃ w, step natives ch vmJ = StepOut.next w ∧ w.stack = v :: S0 ∧
      w.ip = (if is_falsy v then jmp + 3 else jif + 3)) ∧
    (∃ (n : Nat) (tr : List Nat) (vmF : VM),
      runTraceN natives ch n vmJ = (StepOut.next vmF, tr) ∧
      vmF.ip = endIp ∧ vmF.stack = S0 ∧
      (tr.filter (fun i => decide (i = jif + 3) || decide (i = jmp + 3))).length = 1) := by
  subst hip
  have hsum1 : (jmp - vmJ.ip) / 256 * 256 + (jmp - vmJ.ip) % 256 = jmp - vmJ.ip := by
    omega
  have hsum2 : (endIp - jmp - 3) / 256 * 256 + (endIp - jmp - 3) % 256 =
      endIp - jmp - 3 := by omega
  by_cases hv : is_falsy v = true
  · -- falsy: jump to the second pop, which removes the condition; the
    -- else body then runs to endIp.
    have s1 : step natives ch vmJ = StepOut.next { vmJ with ip := jmp + 3 } := by
      simp only [step, hcJ, hcJ1, hcJ2, hstk, hv, if_true, hsum1]
      rw [show vmJ.ip + 3 + (jmp - vmJ.ip) = jmp + 3 from by omega]
    have s2 : step natives ch { vmJ with ip := jmp + 3 } =
        StepOut.next { vmJ with ip := jmp + 4, stack := S0 } := by
      simp only [step, hcP2, stack_pop, hstk]
    constructor
    · exact ⟨{ vmJ with ip := jmp + 3 }, s1, by simp [hstk], by simp [hv]⟩
    · refine ⟨1 + (1 + nE), [vmJ.ip] ++ ([jmp + 3] ++ trE), vmE, ?_, hEip, hEstk, ?_⟩
      · have r1 := runTraceN_one natives ch vmJ _ s1
        have r2 := runTraceN_one natives ch _ _ s2
        have c1 := runTraceN_add natives ch 1 (1 + nE) vmJ _ _ r1
        have c2 := runTraceN_add natives ch 1 nE { vmJ with ip := jmp + 3 } _ _ r2
        rw [hElse] at c2
        rw [c1, c2]
      · have hfE : trE.filter
            (fun i => decide (i = vmJ.ip + 3) || decide (i = jmp + 3)) = [] := by
          refine List.filter_eq_nil_iff.mpr ?_
          intro a ha
          simp [(hEavoid a ha).1, (hEavoid a ha).2]
        have hne1 : ¬ (vmJ.ip = vmJ.ip + 3) := by omega
        have hne2 : ¬ (vmJ.ip = jmp + 3) := by omega
        have hne3 : ¬ (jmp + 3 = vmJ.ip + 3) := by omega
        simp [List.filter_append, hfE, hne1, hne2, hne3]
  · -- truthy: fall through to the first pop, run the then body, and
    -- jump over the second pop straight to endIp.
    have hvf : is_falsy v = false := by
      cases h : is_falsy v
      · rfl
      · exact absurd h hv
    have s1 : step natives ch vmJ = StepOut.next { vmJ with ip := vmJ.ip + 3 } := by
      simp only [step, hcJ, hcJ1, hcJ2, hstk, hvf, if_false, hsum1]
      simp
    have s2 : step natives ch { vmJ with ip := vmJ.ip + 3 } =
        StepOut.next { vmJ with ip := vmJ.ip + 4, stack := S0 } := by
      simp only [step, hcP1, stack_pop, hstk]
    have s4 : step natives ch vmT = StepOut.next { vmT with ip := endIp } := by
      simp only [step, hTip, hcM, hcM1, hcM2, hsum2]
      rw [show jmp + 3 + (endIp - jmp - 3) = endIp from by omega]
    constructor
    · exact ⟨{ vmJ with ip := vmJ.ip + 3 }, s1, by simp [hstk], by simp [hvf]⟩
    · refine ⟨1 + (1 + (nT + 1)), [vmJ.ip] ++ ([vmJ.ip + 3] ++ (trT ++ [vmT.ip])),
        { vmT with ip := endIp }, ?_, rfl, by simp [hTstk], ?_⟩
      · have r1 := runTraceN_one natives ch vmJ _ s1
        have r2 := runTraceN_one natives ch _ _ s2
        have r4 := runTraceN_one natives ch vmT _ s4
        have c1 := runTraceN_add natives ch 1 (1 + (nT + 1)) vmJ _ _ r1
        have c2 := runTraceN_add natives ch 1 (nT + 1) { vmJ with ip := vmJ.ip + 3 } _ _ r2
        have c3 := runTraceN_add natives ch nT 1 { vmJ with ip := vmJ.ip + 4, stack := S0 }
          _ _ hThen
        rw [r4] at c3
        rw [c3] at c2
        rw [c2] at c1
        rw [c1]
      · have hfT : trT.filter
            (fun i => decide (i = vmJ.ip + 3) || decide (i = jmp + 3)) = [] := by
          refine List.filter_eq_nil_iff.mpr ?_
          intro a ha
          simp [(hTavoid a ha).1, (hTavoid a ha).2]
        have hne1 : ¬ (vmJ.ip = vmJ.ip + 3) := by omega
        have hne2 : ¬ (vmJ.ip = jmp + 3) := by omega
        have hne4 : ¬ (jmp = vmJ.ip + 3) := by omega
        have hne5 : ¬ (jmp = jmp + 3) := by omega
        simp [List.filter_append, hfT, hTip, hne1, hne2, hne4, hne5]

/-- C2 witness: the embedded compiler output for an if statement with a
truthy integer condition and empty branches (chunk bytes OP_CONSTANT 0,
OP_JUMP_IF_FALSE 0 4, OP_POP, OP_JUMP 0 1, OP_POP, OP_HALT): starting
at the jump with the condition on the stack, the condition survives the
jump instruction, the run reaches the end with the condition removed,
and exactly one of the two pop sites executes. -/
theorem C2_witness :
    (∃ w, step natives_unused if_witness_compiler.chunk
        { vm_make with ip := 2, stack := [Value.vint 1] } = StepOut.next w ∧
      w.stack = [Value.vint 1] ∧
      w.ip = (if is_falsy (Value.vint 1) then 6 + 3 else 2 + 3)) ∧
    (∃ (n : Nat) (tr : List Nat) (vmF : VM),
      runTraceN natives_unused if_witness_compiler.chunk n
          { vm_make with ip := 2, stack := [Value.vint 1] } =
        (StepOut.next vmF, tr) ∧
      vmF.ip = 10 ∧ vmF.stack = [] ∧
      (tr.filter (fun i => decide (i = 2 + 3) || decide (i = 6 + 3))).length = 1) := by
  exact C2_if_pop_protocol natives_unused if_witness_compiler.chunk 2 6 10
    { vm_make with ip := 2, stack := [Value.vint 1] } _ _
    (Value.vint 1) [] 0 0 [] []
    (by decide) (by decide)
    (by decide) (by decide) (by decide) (by decide) (by decide) (by decide)
    (by decide) (by decide)
    rfl rfl
    rfl (by decide) rfl (by simp)
    rfl (by decide) rfl (by simp)

end Satori
